import Mathlib

/-!
Verification development for the GamePlay engine's material-parameter core
(`gameplay/src/MaterialParameter.cpp`).

The C++ code is shallowly embedded as follows.

* IEEE `float` values are modelled as exact rationals (`ℚ`); the spec's
  interpolation identities are algebraic identities over the stored numbers.
* The untyped C union `{float; int; float*; int*; Sampler*; MethodBinding*}`
  is modelled by `UnionVal`.  All pointer members of the union share one
  representation (`UnionVal.uptr`), matching the aliasing of pointers inside
  the union; the all-zero state produced by `memset` is `UnionVal.uzero`.
  Reading a scalar member while a pointer (or vice versa) is type punning in
  the C++ source; the readers below return `0` in that case, and theorems
  only range over cell states in which no punning occurs.
* Heap memory is modelled by `Heap`: association lists from addresses to
  float blocks / int blocks, reference counts for samplers and method
  bindings, plus ledgers counting `new[]` and `delete[]` events so that
  ownership claims (owned allocation matched by exactly one release) can be
  stated.  Address `0` plays the role of the null pointer.
* Fresh allocation hands out `Heap.next` and bumps it; external (borrowed)
  buffers are simply entries placed in the heap by the theorem statements.
-/

namespace GamePlay

/-- Material parameter value kinds, from the `MaterialParameter` enum in
`MaterialParameter.h` (used throughout `MaterialParameter.cpp`). -/
inductive MPType
  | NONE
  | FLOAT
  | INT
  | VECTOR2
  | VECTOR3
  | VECTOR4
  | MATRIX
  | SAMPLER
  | METHOD
deriving DecidableEq, Repr

/-- The untyped union `_value` of `MaterialParameter`.  `uzero` is the
`memset`-to-zero state; `uptr` covers every pointer member (float*, int*,
sampler, method binding), which alias each other inside the union. -/
inductive UnionVal
  | uzero
  | ufloat (x : ℚ)
  | uint (x : ℤ)
  | uptr (a : ℕ)
deriving DecidableEq, Repr

/-- Reading the union through `floatValue`.  Punning a non-float member is
modelled as `0`; theorems only visit states where this does not happen. -/
def UnionVal.asFloat : UnionVal → ℚ
  | .ufloat x => x
  | _ => 0

/-- Reading the union through `intValue` (punning modelled as `0`). -/
def UnionVal.asInt : UnionVal → ℤ
  | .uint x => x
  | _ => 0

/-- Reading the union through any of its pointer members.  The zero state
reads as the null pointer (address `0`); punning a scalar is modelled as
null. -/
def UnionVal.asPtr : UnionVal → ℕ
  | .uptr a => a
  | _ => 0

/-- Association-list lookup on address-keyed stores. -/
def lookupA {α : Type} : List (ℕ × α) → ℕ → Option α
  | [], _ => none
  | q :: t, a => if q.1 = a then some q.2 else lookupA t a

/-- Association-list overwrite: replaces the payload at address `a`
(modelling a write through a pointer); writing to an absent address is a
no-op. -/
def storeA {α : Type} : List (ℕ × α) → ℕ → α → List (ℕ × α)
  | [], _, _ => []
  | q :: t, a, x => (if q.1 = a then (a, x) else q) :: storeA t a x

/-- The modelled heap: float blocks, int blocks, reference counts of
samplers and method bindings, the next fresh address, and ledgers of
`new[]` / `delete[]` events. -/
structure Heap where
  fblocks : List (ℕ × List ℚ)
  iblocks : List (ℕ × List ℤ)
  samplers : List (ℕ × ℕ)
  methods : List (ℕ × ℕ)
  next : ℕ
  newCount : ℕ
  deleteCount : ℕ
deriving DecidableEq, Repr

/-- A heap with no blocks and no allocation history. -/
def emptyHeap : Heap := ⟨[], [], [], [], 1, 0, 0⟩

/-- Contents of the float block at `a` (empty list when unallocated). -/
def heapF (h : Heap) (a : ℕ) : List ℚ := (lookupA h.fblocks a).getD []

/-- Contents of the int block at `a`. -/
def heapI (h : Heap) (a : ℕ) : List ℤ := (lookupA h.iblocks a).getD []

/-- Element `i` of the float block at `a`, as read through a `float*`. -/
def bufF (h : Heap) (a : ℕ) : ℕ → ℚ := fun i => (heapF h a).getD i 0

/-- Element `i` of the int block at `a`, as read through an `int*`. -/
def bufI (h : Heap) (a : ℕ) : ℕ → ℤ := fun i => (heapI h a).getD i 0

/-- Allocation by `new float[...]`: returns the fresh address and bumps the
`new[]` ledger. -/
def allocF (h : Heap) (xs : List ℚ) : ℕ × Heap :=
  (h.next, { h with fblocks := (h.next, xs) :: h.fblocks, next := h.next + 1,
                    newCount := h.newCount + 1 })

/-- Overwrite of the float block at `a` (a `memcpy` through a `float*`). -/
def storeF (h : Heap) (a : ℕ) (xs : List ℚ) : Heap :=
  { h with fblocks := storeA h.fblocks a xs }

/-- Overwrite of the int block at `a`. -/
def storeI (h : Heap) (a : ℕ) (xs : List ℤ) : Heap :=
  { h with iblocks := storeA h.iblocks a xs }

/-- `SAFE_DELETE_ARRAY` on a `float*`: no-op on null, otherwise removes the
block and bumps the `delete[]` ledger. -/
def deleteF (h : Heap) (a : ℕ) : Heap :=
  if a = 0 then h
  else { h with fblocks := h.fblocks.filter (fun q => q.1 != a),
                deleteCount := h.deleteCount + 1 }

/-- `SAFE_DELETE_ARRAY` on an `int*`. -/
def deleteI (h : Heap) (a : ℕ) : Heap :=
  if a = 0 then h
  else { h with iblocks := h.iblocks.filter (fun q => q.1 != a),
                deleteCount := h.deleteCount + 1 }

/-- `addRef` on a sampler: bumps its reference count (a sampler unknown to
the model enters with count 1). -/
def addRefS (h : Heap) (a : ℕ) : Heap :=
  if (lookupA h.samplers a).isSome then
    { h with samplers := storeA h.samplers a ((lookupA h.samplers a).getD 0 + 1) }
  else
    { h with samplers := (a, 1) :: h.samplers }

/-- `release` on a sampler (guarded by the null check of the caller):
decrements its reference count. -/
def releaseS (h : Heap) (a : ℕ) : Heap :=
  { h with samplers := storeA h.samplers a ((lookupA h.samplers a).getD 0 - 1) }

/-- `addRef` on a method binding. -/
def addRefM (h : Heap) (a : ℕ) : Heap :=
  if a = 0 then h
  else if (lookupA h.methods a).isSome then
    { h with methods := storeA h.methods a ((lookupA h.methods a).getD 0 + 1) }
  else
    { h with methods := (a, 1) :: h.methods }

/-- `SAFE_RELEASE` on a method binding: no-op on null, otherwise decrements
its reference count. -/
def releaseM (h : Heap) (a : ℕ) : Heap :=
  if a = 0 then h
  else { h with methods := storeA h.methods a ((lookupA h.methods a).getD 0 - 1) }

/-- A resolved shader uniform: the handle and the effect that owns it
(`Uniform::getEffect` is modelled by the stored effect id). -/
structure Uniform where
  handle : ℕ
  effectId : ℕ
deriving DecidableEq, Repr

/-- A shader effect: its identity and its table of named uniforms. -/
structure Effect where
  id : ℕ
  uniforms : List (String × ℕ)
deriving DecidableEq, Repr

/-- `Effect::getUniform(name)`: looks the name up in the effect's uniform
table. -/
def Effect.getUniform (e : Effect) (n : String) : Option Uniform :=
  (e.uniforms.find? (fun q => q.1 == n)).map (fun q => ⟨q.2, e.id⟩)

/-- The `MaterialParameter` object: type tag `_type`, element count
`_count`, ownership flag `_dynamic`, `_name`, cached `_uniform`, and the
value union `_value`. -/
structure MaterialParameter where
  type : MPType
  count : ℕ
  dynamic : Bool
  name : String
  uniform : Option Uniform
  u : UnionVal
deriving DecidableEq, Repr

/-- The `MaterialParameter(name)` constructor: type `NONE`, count 1, not
dynamic, no cached uniform, zeroed union (the constructor's `clearValue`
call is the identity on this state). -/
def mkMaterialParameter (n : String) : MaterialParameter :=
  ⟨.NONE, 1, false, n, none, .uzero⟩

/-- `MaterialParameter::clearValue`.  In the dynamic branch the owned
buffer (or method reference) is released and `_count` is reset to 1; in the
non-dynamic branch only a held sampler is released and `_count` is left
untouched.  Both branches end with `memset(&_value, 0, ...)` and
`_type = NONE`. -/
def clearValue (p : MaterialParameter) (h : Heap) : MaterialParameter × Heap :=
  if p.dynamic then
    let h' :=
      match p.type with
      | .FLOAT | .VECTOR2 | .VECTOR3 | .VECTOR4 | .MATRIX => deleteF h p.u.asPtr
      | .INT => deleteI h p.u.asPtr
      | .METHOD => releaseM h p.u.asPtr
      | _ => h
    ({ p with dynamic := false, count := 1, u := .uzero, type := .NONE }, h')
  else
    let h' :=
      match p.type with
      | .SAMPLER => if p.u.asPtr ≠ 0 then releaseS h p.u.asPtr else h
      | _ => h
    ({ p with u := .uzero, type := .NONE }, h')

/-- `setValue(float)`. -/
def setValueFloat (p : MaterialParameter) (h : Heap) (x : ℚ) :
    MaterialParameter × Heap :=
  let q := clearValue p h
  ({ q.1 with u := .ufloat x, type := .FLOAT }, q.2)

/-- `setValue(int)`. -/
def setValueInt (p : MaterialParameter) (h : Heap) (x : ℤ) :
    MaterialParameter × Heap :=
  let q := clearValue p h
  ({ q.1 with u := .uint x, type := .INT }, q.2)

/-- `setValue(const float*, unsigned int)`: borrows the caller's buffer. -/
def setValueFloatArray (p : MaterialParameter) (h : Heap) (a n : ℕ) :
    MaterialParameter × Heap :=
  let q := clearValue p h
  ({ q.1 with u := .uptr a, count := n, type := .FLOAT }, q.2)

/-- `setValue(const int*, unsigned int)`: borrows the caller's buffer. -/
def setValueIntArray (p : MaterialParameter) (h : Heap) (a n : ℕ) :
    MaterialParameter × Heap :=
  let q := clearValue p h
  ({ q.1 with u := .uptr a, count := n, type := .INT }, q.2)

/-- `setValue(const Vector2&)`: copies into a freshly owned 2-float
block. -/
def setValueVector2 (p : MaterialParameter) (h : Heap) (x y : ℚ) :
    MaterialParameter × Heap :=
  let q := clearValue p h
  let r := allocF q.2 [x, y]
  ({ q.1 with u := .uptr r.1, dynamic := true, count := 1, type := .VECTOR2 }, r.2)

/-- `setValue(const Vector2*, unsigned int)`: borrows the caller's
buffer. -/
def setValueVector2Array (p : MaterialParameter) (h : Heap) (a n : ℕ) :
    MaterialParameter × Heap :=
  let q := clearValue p h
  ({ q.1 with u := .uptr a, count := n, type := .VECTOR2 }, q.2)

/-- `setValue(const Vector3&)`: copies into a freshly owned 3-float
block. -/
def setValueVector3 (p : MaterialParameter) (h : Heap) (x y z : ℚ) :
    MaterialParameter × Heap :=
  let q := clearValue p h
  let r := allocF q.2 [x, y, z]
  ({ q.1 with u := .uptr r.1, dynamic := true, count := 1, type := .VECTOR3 }, r.2)

/-- `setValue(const Vector3*, unsigned int)`: borrows the caller's
buffer. -/
def setValueVector3Array (p : MaterialParameter) (h : Heap) (a n : ℕ) :
    MaterialParameter × Heap :=
  let q := clearValue p h
  ({ q.1 with u := .uptr a, count := n, type := .VECTOR3 }, q.2)

/-- `setValue(const Vector4&)`: copies into a freshly owned 4-float
block. -/
def setValueVector4 (p : MaterialParameter) (h : Heap) (x y z w : ℚ) :
    MaterialParameter × Heap :=
  let q := clearValue p h
  let r := allocF q.2 [x, y, z, w]
  ({ q.1 with u := .uptr r.1, dynamic := true, count := 1, type := .VECTOR4 }, r.2)

/-- `setValue(const Vector4*, unsigned int)`: borrows the caller's
buffer. -/
def setValueVector4Array (p : MaterialParameter) (h : Heap) (a n : ℕ) :
    MaterialParameter × Heap :=
  let q := clearValue p h
  ({ q.1 with u := .uptr a, count := n, type := .VECTOR4 }, q.2)

/-- `setValue(const Matrix&)`: reuses the owned 16-float block when the
cell already stores a single dynamic matrix, otherwise clears and
allocates; then copies the 16 floats in. -/
def setValueMatrix (p : MaterialParameter) (h : Heap) (m : List ℚ) :
    MaterialParameter × Heap :=
  if p.dynamic = true ∧ p.count = 1 ∧ p.type = .MATRIX ∧ p.u.asPtr ≠ 0 then
    ({ p with dynamic := true, count := 1, type := .MATRIX },
     storeF h p.u.asPtr m)
  else
    let q := clearValue p h
    let r := allocF q.2 m
    ({ q.1 with u := .uptr r.1, dynamic := true, count := 1, type := .MATRIX }, r.2)

/-- `setValue(const Matrix*, unsigned int)`: borrows the caller's
buffer. -/
def setValueMatrixArray (p : MaterialParameter) (h : Heap) (a n : ℕ) :
    MaterialParameter × Heap :=
  let q := clearValue p h
  ({ q.1 with u := .uptr a, count := n, type := .MATRIX }, q.2)

/-- `setValue(const Texture::Sampler*)`: clears the prior value, then only
for a non-null sampler adds a reference and stores it (address `0` models
the null sampler). -/
def setValueSampler (p : MaterialParameter) (h : Heap) (s : ℕ) :
    MaterialParameter × Heap :=
  let q := clearValue p h
  if s ≠ 0 then
    ({ q.1 with u := .uptr s, type := .SAMPLER }, addRefS q.2 s)
  else
    q

/-- Value uploaded to an effect by `bind` (arrays are uploaded as the
buffer address plus the element count, mirroring the pointer-based upload
calls). -/
inductive UploadVal
  | uFloat (x : ℚ)
  | uFloatArray (a n : ℕ)
  | uInt (x : ℤ)
  | uIntArray (a n : ℕ)
  | uVector2Array (a n : ℕ)
  | uVector3Array (a n : ℕ)
  | uVector4Array (a n : ℕ)
  | uMatrixArray (a n : ℕ)
  | uSampler (a : ℕ)
deriving DecidableEq, Repr

/-- Observable event emitted by `MaterialParameter::bind`: the `GP_WARN`
for a missing uniform, a typed upload, the double-dispatch through a method
binding, or the `GP_ERROR` for an unsupported type. -/
inductive BindEvent
  | warn
  | upload (handle : ℕ) (v : UploadVal)
  | methodSetValue (m : ℕ)
  | typeError
deriving DecidableEq, Repr

/-- `MaterialParameter::bind(Effect*)`: refreshes the cached uniform when
absent or cached from a different effect; a failed lookup stores the null
uniform, warns and returns; otherwise one typed upload is dispatched on
`_type`. -/
def bind (p : MaterialParameter) (e : Effect) : MaterialParameter × List BindEvent :=
  let resolved : Option Uniform :=
    match p.uniform with
    | some u => if u.effectId ≠ e.id then e.getUniform p.name else some u
    | none => e.getUniform p.name
  match resolved with
  | none => ({ p with uniform := none }, [.warn])
  | some u =>
    let ev : BindEvent :=
      match p.type with
      | .FLOAT =>
        if p.count = 1 then .upload u.handle (.uFloat p.u.asFloat)
        else .upload u.handle (.uFloatArray p.u.asPtr p.count)
      | .INT =>
        if p.count = 1 then .upload u.handle (.uInt p.u.asInt)
        else .upload u.handle (.uIntArray p.u.asPtr p.count)
      | .VECTOR2 => .upload u.handle (.uVector2Array p.u.asPtr p.count)
      | .VECTOR3 => .upload u.handle (.uVector3Array p.u.asPtr p.count)
      | .VECTOR4 => .upload u.handle (.uVector4Array p.u.asPtr p.count)
      | .MATRIX => .upload u.handle (.uMatrixArray p.u.asPtr p.count)
      | .SAMPLER => .upload u.handle (.uSampler p.u.asPtr)
      | .METHOD => .methodSetValue p.u.asPtr
      | .NONE => .typeError
    ({ p with uniform := some u }, [ev])

/-- Result type of a recognized node accessor in the
`MaterialParameter::bindValue(Node*, const char*)` dispatch chain: the
template is instantiated at `Vector3` or at `float`. -/
inductive NodeAccessor
  | vec3Accessor
  | floatAccessor
deriving DecidableEq, Repr

/-- The string-comparison chain of
`MaterialParameter::bindValue(Node*, const char*)`: each recognized name
selects a typed `Node` accessor; any other string falls through to
`GP_ERROR` (modelled as `none`). -/
def bindValueLookup (binding : String) : Option NodeAccessor :=
  if binding = "&Node::getBackVector" then some .vec3Accessor
  else if binding = "&Node::getDownVector" then some .vec3Accessor
  else if binding = "&Node::getTranslationWorld" then some .vec3Accessor
  else if binding = "&Node::getTranslationView" then some .vec3Accessor
  else if binding = "&Node::getForwardVector" then some .vec3Accessor
  else if binding = "&Node::getForwardVectorWorld" then some .vec3Accessor
  else if binding = "&Node::getForwardVectorView" then some .vec3Accessor
  else if binding = "&Node::getLeftVector" then some .vec3Accessor
  else if binding = "&Node::getRightVector" then some .vec3Accessor
  else if binding = "&Node::getRightVectorWorld" then some .vec3Accessor
  else if binding = "&Node::getUpVector" then some .vec3Accessor
  else if binding = "&Node::getUpVectorWorld" then some .vec3Accessor
  else if binding = "&Node::getActiveCameraTranslationWorld" then some .vec3Accessor
  else if binding = "&Node::getActiveCameraTranslationView" then some .vec3Accessor
  else if binding = "&Node::getScaleX" then some .floatAccessor
  else if binding = "&Node::getScaleY" then some .floatAccessor
  else if binding = "&Node::getScaleZ" then some .floatAccessor
  else if binding = "&Node::getTranslationX" then some .floatAccessor
  else if binding = "&Node::getTranslationY" then some .floatAccessor
  else if binding = "&Node::getTranslationZ" then some .floatAccessor
  else none

/-- Modelled from the spec: the `bindValue<ClassType, ParameterType>`
template (declared in `MaterialParameter.h`, not under `src/`) installs a
computed binding whose flat channel count is the accessor's declared arity,
3 for vector accessors and 1 for scalar accessors. -/
def nodeAccessorChannels : NodeAccessor → ℕ
  | .vec3Accessor => 3
  | .floatAccessor => 1

/-- Outcome of `MaterialParameter::bindValue(Node*, const char*)`: either a
computed binding with the given flat channel count is installed, or the
chain ends in the fatal `GP_ERROR` branch. -/
inductive BindValueOutcome
  | installed (channels : ℕ)
  | fatalError
deriving DecidableEq, Repr

/-- Dispatch of `MaterialParameter::bindValue(Node*, const char*)` on the
binding string. -/
def bindValueDispatch (binding : String) : BindValueOutcome :=
  match bindValueLookup binding with
  | some r => .installed (nodeAccessorChannels r)
  | none => .fatalError

/-- Modelled from the spec: the single recognized animation property id
`ANIMATE_UNIFORM` (declared in `MaterialParameter.h`, not under `src/`);
its numeric value is irrelevant to the dispatch. -/
def ANIMATE_UNIFORM : ℤ := 1

/-- `MaterialParameter::getAnimationPropertyComponentCount`: for the
uniform-value property id, the flat channel count of the current type;
`0` for every other property id. -/
def getAnimationPropertyComponentCount (p : MaterialParameter)
    (propertyId : ℤ) : ℕ :=
  if propertyId = ANIMATE_UNIFORM then
    match p.type with
    | .NONE | .MATRIX | .SAMPLER | .METHOD => 0
    | .FLOAT | .INT => p.count
    | .VECTOR2 => 2 * p.count
    | .VECTOR3 => 3 * p.count
    | .VECTOR4 => 4 * p.count
  else 0

/-- Modelled from the spec: `AnimationValue` (its implementation is not
under `src/`; only its scripting glue is) is a flat float-channel store
with single-channel get/set and bulk get/set over an offset/length
range. -/
structure AnimationValue where
  f : ℕ → ℚ

/-- `AnimationValue::getFloat(index)`. -/
def AnimationValue.getFloat (v : AnimationValue) (i : ℕ) : ℚ := v.f i

/-- `AnimationValue::setFloat(index, value)`. -/
def AnimationValue.setFloat (v : AnimationValue) (i : ℕ) (x : ℚ) :
    AnimationValue :=
  ⟨fun j => if j = i then x else v.f j⟩

/-- Modelled from the spec: the bulk
`AnimationValue::setFloat(float*, offset, length)` copies channels
`[offset, offset+length)` from the supplied buffer, at the same offset on
both sides. -/
def AnimationValue.setFloats (v : AnimationValue) (src : ℕ → ℚ)
    (off len : ℕ) : AnimationValue :=
  ⟨fun j => if off ≤ j ∧ j < off + len then src j else v.f j⟩

/-- `MaterialParameter::getAnimationPropertyValue`: copies the cell's flat
channels into the supplied `AnimationValue`, element by element for
scalar/array float and int cells and in vector-sized strides for the
vector kinds; non-animatable kinds leave the value untouched. -/
def getAnimationPropertyValue (p : MaterialParameter) (h : Heap)
    (propertyId : ℤ) (v : AnimationValue) : AnimationValue :=
  if propertyId = ANIMATE_UNIFORM then
    match p.type with
    | .FLOAT =>
      if p.count = 1 then v.setFloat 0 p.u.asFloat
      else (List.range p.count).foldl
        (fun v i => v.setFloat i (bufF h p.u.asPtr i)) v
    | .INT =>
      if p.count = 1 then v.setFloat 0 (p.u.asInt : ℚ)
      else (List.range p.count).foldl
        (fun v i => v.setFloat i ((bufI h p.u.asPtr i : ℤ) : ℚ)) v
    | .VECTOR2 => (List.range p.count).foldl
        (fun v i => v.setFloats (bufF h p.u.asPtr) (i * 2) 2) v
    | .VECTOR3 => (List.range p.count).foldl
        (fun v i => v.setFloats (bufF h p.u.asPtr) (i * 3) 3) v
    | .VECTOR4 => (List.range p.count).foldl
        (fun v i => v.setFloats (bufF h p.u.asPtr) (i * 4) 4) v
    | _ => v
  else v

/-- Modelled from the spec: `Curve::lerp(t, a, b) = a + t * (b - a)` (the
curve-evaluation collaborator is not under `src/`). -/
def lerp (t a b : ℚ) : ℚ := a + t * (b - a)

/-- C++ float-to-int conversion as performed by the assignment
`_value.intValue = Curve::lerp(...)`: the integer quotient of the
rational's numerator by its denominator, truncating toward zero. -/
def ratTrunc (q : ℚ) : ℤ := q.num.tdiv q.den

/-- `MaterialParameter::applyAnimationValue`: blends the first
`_count * components` entries of the cell's float buffer toward the
animation channels, leaving any remaining entries untouched. -/
def applyAnimationValue (p : MaterialParameter) (h : Heap)
    (v : AnimationValue) (w : ℚ) (components : ℕ) :
    MaterialParameter × Heap :=
  let count := p.count * components
  let a := p.u.asPtr
  let buf := heapF h a
  let newbuf :=
    (List.range count).map (fun i => lerp w (buf.getD i 0) (v.getFloat i))
      ++ buf.drop count
  (p, storeF h a newbuf)

/-- `MaterialParameter::setAnimationPropertyValue`: blends the cell toward
the animation channels with weight `w`; scalar int cells store the blended
float back through C++ int conversion (`ratTrunc`), int arrays likewise
per element. -/
def setAnimationPropertyValue (p : MaterialParameter) (h : Heap)
    (propertyId : ℤ) (v : AnimationValue) (w : ℚ) :
    MaterialParameter × Heap :=
  if propertyId = ANIMATE_UNIFORM then
    match p.type with
    | .FLOAT =>
      if p.count = 1 then
        ({ p with u := .ufloat (lerp w p.u.asFloat (v.getFloat 0)) }, h)
      else applyAnimationValue p h v w 1
    | .INT =>
      if p.count = 1 then
        ({ p with u := .uint (ratTrunc (lerp w (p.u.asInt : ℚ) (v.getFloat 0))) }, h)
      else
        let buf := heapI h p.u.asPtr
        let newbuf :=
          (List.range p.count).map
            (fun i => ratTrunc (lerp w ((buf.getD i 0 : ℤ) : ℚ) (v.getFloat i)))
            ++ buf.drop p.count
        (p, storeI h p.u.asPtr newbuf)
    | .VECTOR2 => applyAnimationValue p h v w 2
    | .VECTOR3 => applyAnimationValue p h v w 3
    | .VECTOR4 => applyAnimationValue p h v w 4
    | _ => (p, h)
  else (p, h)

/-- `MaterialParameter::cloneInto`: copies `_type`, `_count`, `_dynamic`
and `_uniform` onto the target first, then re-establishes the payload
through the typed `setValue` calls (deep copy for single vectors and
matrices, aliasing for arrays, add-ref for samplers and methods). -/
def cloneInto (p tgt : MaterialParameter) (h : Heap) :
    MaterialParameter × Heap :=
  let t := { tgt with type := p.type, count := p.count, dynamic := p.dynamic, uniform := p.uniform }
  match p.type with
  | .NONE => (t, h)
  | .FLOAT => setValueFloat t h p.u.asFloat
  | .INT => setValueInt t h p.u.asInt
  | .VECTOR2 =>
    if p.count = 1 then
      setValueVector2 t h (bufF h p.u.asPtr 0) (bufF h p.u.asPtr 1)
    else setValueVector2Array t h p.u.asPtr p.count
  | .VECTOR3 =>
    if p.count = 1 then
      setValueVector3 t h (bufF h p.u.asPtr 0) (bufF h p.u.asPtr 1)
        (bufF h p.u.asPtr 2)
    else setValueVector3Array t h p.u.asPtr p.count
  | .VECTOR4 =>
    if p.count = 1 then
      setValueVector4 t h (bufF h p.u.asPtr 0) (bufF h p.u.asPtr 1)
        (bufF h p.u.asPtr 2) (bufF h p.u.asPtr 3)
    else setValueVector4Array t h p.u.asPtr p.count
  | .MATRIX =>
    if p.count = 1 then setValueMatrix t h (heapF h p.u.asPtr)
    else setValueMatrixArray t h p.u.asPtr p.count
  | .SAMPLER => setValueSampler t h p.u.asPtr
  | .METHOD => ({ t with u := .uptr p.u.asPtr }, addRefM h p.u.asPtr)

/-- Observation function: the flat float channels currently stored by the
cell (the view that animation reads and writes), one rational per
channel. -/
def storedChannels (p : MaterialParameter) (h : Heap) : List ℚ :=
  match p.type with
  | .FLOAT =>
    if p.count = 1 then [p.u.asFloat]
    else (List.range p.count).map (bufF h p.u.asPtr)
  | .INT =>
    if p.count = 1 then [(p.u.asInt : ℚ)]
    else (List.range p.count).map (fun i => ((bufI h p.u.asPtr i : ℤ) : ℚ))
  | .VECTOR2 => (List.range (2 * p.count)).map (bufF h p.u.asPtr)
  | .VECTOR3 => (List.range (3 * p.count)).map (bufF h p.u.asPtr)
  | .VECTOR4 => (List.range (4 * p.count)).map (bufF h p.u.asPtr)
  | _ => []

/-- Union holds a scalar float. -/
def UnionVal.isScalarFloat : UnionVal → Bool
  | .ufloat _ => true
  | _ => false

/-- Union holds a scalar int. -/
def UnionVal.isScalarInt : UnionVal → Bool
  | .uint _ => true
  | _ => false

/-- Union holds a non-null pointer to an allocated float block of at
least `n` entries. -/
def checkFBlock (h : Heap) (u : UnionVal) (n : ℕ) : Bool :=
  match u, lookupA h.fblocks u.asPtr with
  | .uptr a, some xs => a ≠ 0 && n ≤ xs.length
  | _, _ => false

/-- Union holds a non-null pointer to an allocated int block of at least
`n` entries. -/
def checkIBlock (h : Heap) (u : UnionVal) (n : ℕ) : Bool :=
  match u, lookupA h.iblocks u.asPtr with
  | .uptr a, some xs => a ≠ 0 && n ≤ xs.length
  | _, _ => false

/-- Shape check for a cell in an animatable state: the union member active
for the current type really is active, and buffers are allocated and long
enough for the flat channel count (no type punning, no out-of-bounds
access in the C++ loops). -/
def animWF (p : MaterialParameter) (h : Heap) : Bool :=
  match p.type with
  | .FLOAT =>
    if p.count = 1 then p.u.isScalarFloat else checkFBlock h p.u p.count
  | .INT =>
    if p.count = 1 then p.u.isScalarInt else checkIBlock h p.u p.count
  | .VECTOR2 => checkFBlock h p.u (2 * p.count)
  | .VECTOR3 => checkFBlock h p.u (3 * p.count)
  | .VECTOR4 => checkFBlock h p.u (4 * p.count)
  | _ => true

/-- Channel-count table written from the spec's words, for comparison with
the source's `getAnimationPropertyComponentCount`:
`componentsPerElement = {1, 1, 2, 3, 4}` for Float, Int, Vector2, Vector3,
Vector4, and `0` for the non-animatable kinds. -/
def specComponentsPerElement : MPType → ℕ
  | .FLOAT => 1
  | .INT => 1
  | .VECTOR2 => 2
  | .VECTOR3 => 3
  | .VECTOR4 => 4
  | _ => 0

/-- One mutation of a parameter through its public typed interface: the
`setValue` overloads and `clearValue`. -/
inductive MutOp
  | opClear
  | opFloat (x : ℚ)
  | opInt (x : ℤ)
  | opFloatArray (a n : ℕ)
  | opIntArray (a n : ℕ)
  | opVector2 (x y : ℚ)
  | opVector2Array (a n : ℕ)
  | opVector3 (x y z : ℚ)
  | opVector3Array (a n : ℕ)
  | opVector4 (x y z w : ℚ)
  | opVector4Array (a n : ℕ)
  | opMatrix (m : List ℚ)
  | opMatrixArray (a n : ℕ)
  | opSampler (s : ℕ)
deriving DecidableEq, Repr

/-- Runs one typed mutation against the cell. -/
def runMutOp : MutOp → MaterialParameter → Heap → MaterialParameter × Heap
  | .opClear, p, h => clearValue p h
  | .opFloat x, p, h => setValueFloat p h x
  | .opInt x, p, h => setValueInt p h x
  | .opFloatArray a n, p, h => setValueFloatArray p h a n
  | .opIntArray a n, p, h => setValueIntArray p h a n
  | .opVector2 x y, p, h => setValueVector2 p h x y
  | .opVector2Array a n, p, h => setValueVector2Array p h a n
  | .opVector3 x y z, p, h => setValueVector3 p h x y z
  | .opVector3Array a n, p, h => setValueVector3Array p h a n
  | .opVector4 x y z w, p, h => setValueVector4 p h x y z w
  | .opVector4Array a n, p, h => setValueVector4Array p h a n
  | .opMatrix m, p, h => setValueMatrix p h m
  | .opMatrixArray a n, p, h => setValueMatrixArray p h a n
  | .opSampler s, p, h => setValueSampler p h s

/-- Number of owned heap-buffer allocations held by the cell: exactly one
when `_dynamic` is set with a buffer-backed type and a non-null pointer
(matching precisely the `delete[]` that `clearValue` will perform). -/
def ownedAllocs (p : MaterialParameter) : ℕ :=
  if p.dynamic then
    match p.type with
    | .FLOAT | .INT | .VECTOR2 | .VECTOR3 | .VECTOR4 | .MATRIX =>
      if p.u.asPtr ≠ 0 then 1 else 0
    | _ => 0
  else 0

/-- Ownership ledger invariant for a single cell: every `new[]` has been
matched by a `delete[]` except for the buffer the cell still owns. -/
def heapBalanced (p : MaterialParameter) (h : Heap) : Prop :=
  h.newCount = h.deleteCount + ownedAllocs p

instance (p : MaterialParameter) (h : Heap) : Decidable (heapBalanced p h) := by
  unfold heapBalanced; infer_instance

/-- Reference count the heap records for the sampler at address `s`. -/
def refCountS (h : Heap) (s : ℕ) : ℕ := (lookupA h.samplers s).getD 0

/-- Reference count the heap records for the method binding at `m`. -/
def refCountM (h : Heap) (m : ℕ) : ℕ := (lookupA h.methods m).getD 0

/-- References the cell holds on the sampler at `s`: exactly one when the
cell stores that sampler in the state `clearValue` will release (kind
`SAMPLER`, non-dynamic, non-null pointer — the non-dynamic branch of
`clearValue` performs the release). -/
def heldS (p : MaterialParameter) (s : ℕ) : ℕ :=
  if p.type = .SAMPLER ∧ p.dynamic = false ∧ p.u.asPtr = s ∧ s ≠ 0 then 1
  else 0

/-- References the cell holds on the method binding at `m`: exactly one
when the cell stores that binding in the state `clearValue` will release
(kind `METHOD`, dynamic, non-null pointer — `SAFE_RELEASE` runs in the
dynamic branch of `clearValue`). -/
def heldM (p : MaterialParameter) (m : ℕ) : ℕ :=
  if p.type = .METHOD ∧ p.dynamic = true ∧ p.u.asPtr = m ∧ m ≠ 0 then 1
  else 0

theorem lookupA_cons_self {α : Type} (l : List (ℕ × α)) (a : ℕ) (x : α) :
    lookupA ((a, x) :: l) a = some x := by
  simp [lookupA]

theorem lookupA_cons_ne {α : Type} (l : List (ℕ × α)) (a b : ℕ) (x : α)
    (hne : b ≠ a) : lookupA ((a, x) :: l) b = lookupA l b := by
  simp [lookupA, Ne.symm hne]

theorem lookupA_storeA_self {α : Type} {l : List (ℕ × α)} {a : ℕ} {y : α}
    (x : α) (hy : lookupA l a = some y) :
    lookupA (storeA l a x) a = some x := by
  induction l with
  | nil => simp [lookupA] at hy
  | cons q t ih =>
    by_cases hq : q.1 = a
    · simp [lookupA, storeA, hq]
    · simp only [lookupA, storeA, if_neg hq] at hy ⊢
      exact ih hy

theorem lookupA_storeA_ne {α : Type} (l : List (ℕ × α)) (a b : ℕ) (x : α)
    (hne : b ≠ a) : lookupA (storeA l a x) b = lookupA l b := by
  induction l with
  | nil => simp [storeA]
  | cons q t ih =>
    by_cases hq : q.1 = a
    · simp only [lookupA, storeA, if_pos hq]
      rw [if_neg (Ne.symm hne), if_neg (by rw [hq]; exact fun hb => hne hb.symm)]
      exact ih
    · simp only [lookupA, storeA, if_neg hq]
      by_cases hb : q.1 = b
      · simp [hb]
      · simp [hb, ih]

theorem lerp_zero (a b : ℚ) : lerp 0 a b = a := by
  simp [lerp]

theorem lerp_one (a b : ℚ) : lerp 1 a b = b := by
  simp [lerp]

theorem ratTrunc_intCast (a : ℤ) : ratTrunc ((a : ℤ) : ℚ) = a := by
  simp [ratTrunc, Rat.num_intCast, Rat.den_intCast, Int.tdiv_one]

theorem ratTrunc_eq_floor_or_ceil (q : ℚ) :
    ratTrunc q = if 0 ≤ q then ⌊q⌋ else ⌈q⌉ := by
  by_cases hq : 0 ≤ q
  · rw [if_pos hq, ratTrunc, Rat.floor_def,
      Int.tdiv_eq_ediv (Rat.num_nonneg.mpr hq) (by positivity)]
  · rw [if_neg hq, ratTrunc]
    have h2 : (-q).num.tdiv (-q).den = ⌊-q⌋ := by
      rw [Rat.floor_def,
        Int.tdiv_eq_ediv (Rat.num_nonneg.mpr (by linarith [not_le.mp hq]))
          (by positivity)]
    have h1 : q.num.tdiv q.den = -((-q).num.tdiv (-q).den) := by
      rw [Rat.neg_num, Rat.neg_den, Int.neg_tdiv, neg_neg]
    rw [h1, h2, Int.floor_neg, neg_neg]

theorem getD_range_map {α : Type} (f : ℕ → α) (d : α) {n i : ℕ} (hi : i < n) :
    ((List.range n).map f).getD i d = f i := by
  rw [List.getD_eq_getElem?_getD, List.getElem?_map, List.getElem?_range hi]
  rfl

theorem getD_append_lt {α : Type} {l₁ l₂ : List α} (d : α) {i : ℕ}
    (hi : i < l₁.length) : (l₁ ++ l₂).getD i d = l₁.getD i d := by
  rw [List.getD_eq_getElem?_getD, List.getD_eq_getElem?_getD,
    List.getElem?_append_left hi]

theorem bufF_eq_getD {h : Heap} {a : ℕ} {xs : List ℚ}
    (hl : lookupA h.fblocks a = some xs) :
    bufF h a = fun i => xs.getD i 0 := by
  funext i
  simp [bufF, heapF, hl]

theorem bufI_eq_getD {h : Heap} {a : ℕ} {xs : List ℤ}
    (hl : lookupA h.iblocks a = some xs) :
    bufI h a = fun i => xs.getD i 0 := by
  funext i
  simp [bufI, heapI, hl]

theorem applyAnim_fst (p : MaterialParameter) (h : Heap) (v : AnimationValue)
    (w : ℚ) (c : ℕ) : (applyAnimationValue p h v w c).1 = p := rfl

theorem applyAnim_bufF {p : MaterialParameter} {h : Heap} {a : ℕ} {xs : List ℚ}
    (v : AnimationValue) (w : ℚ) (c : ℕ)
    (ha : p.u = .uptr a) (hl : lookupA h.fblocks a = some xs)
    {i : ℕ} (hi : i < p.count * c) :
    bufF (applyAnimationValue p h v w c).2 a i =
      lerp w (xs.getD i 0) (v.getFloat i) := by
  have hp : p.u.asPtr = a := by rw [ha]; rfl
  have hbuf : heapF h a = xs := by simp [heapF, hl]
  have hstore :
      lookupA (applyAnimationValue p h v w c).2.fblocks a =
        some ((List.range (p.count * c)).map
            (fun i => lerp w (xs.getD i 0) (v.getFloat i))
          ++ xs.drop (p.count * c)) := by
    simp only [applyAnimationValue, hp, hbuf, storeF]
    exact lookupA_storeA_self _ hl
  have hlt : i < ((List.range (p.count * c)).map
      (fun i => lerp w (xs.getD i 0) (v.getFloat i))).length := by
    simpa using hi
  rw [bufF, heapF, hstore]
  simp only [Option.getD_some]
  rw [getD_append_lt 0 hlt, getD_range_map _ 0 hi]

theorem setFloat_f (v : AnimationValue) (i : ℕ) (x : ℚ) (j : ℕ) :
    (v.setFloat i x).f j = if j = i then x else v.f j := rfl

theorem setFloats_f (v : AnimationValue) (src : ℕ → ℚ) (off len j : ℕ) :
    (v.setFloats src off len).f j =
      if off ≤ j ∧ j < off + len then src j else v.f j := rfl

theorem foldl_setFloat_f (g : ℕ → ℚ) (v : AnimationValue) (n j : ℕ) :
    ((List.range n).foldl (fun v i => v.setFloat i (g i)) v).f j =
      if j < n then g j else v.f j := by
  induction n with
  | zero => simp
  | succ n ih =>
    rw [List.range_succ, List.foldl_append]
    simp only [List.foldl_cons, List.foldl_nil, setFloat_f]
    by_cases hj : j = n
    · rw [if_pos hj, if_pos (by omega), hj]
    · rw [if_neg hj, ih]
      by_cases hjn : j < n
      · rw [if_pos hjn, if_pos (by omega)]
      · rw [if_neg hjn, if_neg (by omega)]

theorem foldl_setFloats_f (src : ℕ → ℚ) (c : ℕ) (v : AnimationValue)
    (n j : ℕ) :
    ((List.range n).foldl (fun v i => v.setFloats src (i * c) c) v).f j =
      if j < n * c then src j else v.f j := by
  induction n with
  | zero => simp
  | succ n ih =>
    rw [List.range_succ, List.foldl_append]
    simp only [List.foldl_cons, List.foldl_nil, setFloats_f]
    rw [Nat.succ_mul]
    generalize hm : n * c = m at ih ⊢
    by_cases hwin : m ≤ j ∧ j < m + c
    · rw [if_pos hwin, if_pos (by omega)]
    · rw [if_neg hwin, ih]
      by_cases hjn : j < m
      · rw [if_pos hjn, if_pos (by omega)]
      · rw [if_neg hjn, if_neg (by omega)]

theorem isScalarFloat_true {u : UnionVal} (hq : u.isScalarFloat = true) :
    ∃ x, u = .ufloat x := by
  cases u <;> first | exact ⟨_, rfl⟩ | exact Bool.noConfusion hq

theorem isScalarInt_true {u : UnionVal} (hq : u.isScalarInt = true) :
    ∃ x, u = .uint x := by
  cases u <;> first | exact ⟨_, rfl⟩ | exact Bool.noConfusion hq

theorem checkFBlock_true {h : Heap} {u : UnionVal} {n : ℕ}
    (hq : checkFBlock h u n = true) :
    ∃ a xs, u = .uptr a ∧ lookupA h.fblocks a = some xs ∧ n ≤ xs.length := by
  cases hu : u with
  | uptr a =>
    rw [hu] at hq
    simp only [checkFBlock, UnionVal.asPtr] at hq
    cases hl : lookupA h.fblocks a with
    | none => rw [hl] at hq; exact Bool.noConfusion hq
    | some xs =>
      rw [hl] at hq
      simp at hq
      exact ⟨a, xs, rfl, hl, hq.2⟩
  | uzero => rw [hu] at hq; exact Bool.noConfusion hq
  | ufloat x => rw [hu] at hq; exact Bool.noConfusion hq
  | uint x => rw [hu] at hq; exact Bool.noConfusion hq

theorem checkIBlock_true {h : Heap} {u : UnionVal} {n : ℕ}
    (hq : checkIBlock h u n = true) :
    ∃ a xs, u = .uptr a ∧ lookupA h.iblocks a = some xs ∧ n ≤ xs.length := by
  cases hu : u with
  | uptr a =>
    rw [hu] at hq
    simp only [checkIBlock, UnionVal.asPtr] at hq
    cases hl : lookupA h.iblocks a with
    | none => rw [hl] at hq; exact Bool.noConfusion hq
    | some xs =>
      rw [hl] at hq
      simp at hq
      exact ⟨a, xs, rfl, hl, hq.2⟩
  | uzero => rw [hu] at hq; exact Bool.noConfusion hq
  | ufloat x => rw [hu] at hq; exact Bool.noConfusion hq
  | uint x => rw [hu] at hq; exact Bool.noConfusion hq

theorem animWF_float_scalar {p : MaterialParameter} {h : Heap}
    (ht : p.type = .FLOAT) (hc : p.count = 1) (hwf : animWF p h = true) :
    ∃ x, p.u = .ufloat x := by
  simp only [animWF, ht, if_pos hc] at hwf
  exact isScalarFloat_true hwf

theorem animWF_int_scalar {p : MaterialParameter} {h : Heap}
    (ht : p.type = .INT) (hc : p.count = 1) (hwf : animWF p h = true) :
    ∃ x, p.u = .uint x := by
  simp only [animWF, ht, if_pos hc] at hwf
  exact isScalarInt_true hwf

theorem animWF_float_array {p : MaterialParameter} {h : Heap}
    (ht : p.type = .FLOAT) (hc : ¬ p.count = 1) (hwf : animWF p h = true) :
    ∃ a xs, p.u = .uptr a ∧ lookupA h.fblocks a = some xs ∧
      p.count ≤ xs.length := by
  simp only [animWF, ht, if_neg hc] at hwf
  exact checkFBlock_true hwf

theorem animWF_int_array {p : MaterialParameter} {h : Heap}
    (ht : p.type = .INT) (hc : ¬ p.count = 1) (hwf : animWF p h = true) :
    ∃ a xs, p.u = .uptr a ∧ lookupA h.iblocks a = some xs ∧
      p.count ≤ xs.length := by
  simp only [animWF, ht, if_neg hc] at hwf
  exact checkIBlock_true hwf

theorem animWF_vec2 {p : MaterialParameter} {h : Heap}
    (ht : p.type = .VECTOR2) (hwf : animWF p h = true) :
    ∃ a xs, p.u = .uptr a ∧ lookupA h.fblocks a = some xs ∧
      2 * p.count ≤ xs.length := by
  simp only [animWF, ht] at hwf
  exact checkFBlock_true hwf

theorem animWF_vec3 {p : MaterialParameter} {h : Heap}
    (ht : p.type = .VECTOR3) (hwf : animWF p h = true) :
    ∃ a xs, p.u = .uptr a ∧ lookupA h.fblocks a = some xs ∧
      3 * p.count ≤ xs.length := by
  simp only [animWF, ht] at hwf
  exact checkFBlock_true hwf

theorem animWF_vec4 {p : MaterialParameter} {h : Heap}
    (ht : p.type = .VECTOR4) (hwf : animWF p h = true) :
    ∃ a xs, p.u = .uptr a ∧ lookupA h.fblocks a = some xs ∧
      4 * p.count ≤ xs.length := by
  simp only [animWF, ht] at hwf
  exact checkFBlock_true hwf

theorem list_eq_range_map {α : Type} (l : List α) (d : α) {n : ℕ}
    (hn : l.length = n) : l = (List.range n).map (fun i => l.getD i d) := by
  apply List.ext_getElem
  · simpa using hn
  · intro i h1 h2
    have hi : i < n := by simpa using h2
    have : ((List.range n).map (fun i => l.getD i d)).getD i d = l.getD i d :=
      getD_range_map _ d hi
    rw [List.getD_eq_getElem?_getD, List.getD_eq_getElem?_getD] at this
    rw [List.getElem?_eq_getElem h1, List.getElem?_eq_getElem h2] at this
    simpa using this.symm

theorem storedChannels_int_cast {p : MaterialParameter} {h : Heap}
    (ht : p.type = .INT) (i : ℕ) :
    ∃ z : ℤ, (storedChannels p h).getD i 0 = ((z : ℤ) : ℚ) := by
  by_cases hc : p.count = 1
  · simp only [storedChannels, ht, if_pos hc]
    match i with
    | 0 => exact ⟨p.u.asInt, rfl⟩
    | i + 1 => exact ⟨0, by simp⟩
  · simp only [storedChannels, ht, if_neg hc]
    by_cases hi : i < p.count
    · exact ⟨bufI h p.u.asPtr i, getD_range_map _ 0 hi⟩
    · refine ⟨0, ?_⟩
      rw [List.getD_eq_getElem?_getD, List.getElem?_eq_none (by simpa using hi)]
      simp

theorem storedChannels_length {p : MaterialParameter} {h : Heap}
    (hK : p.type = .FLOAT ∨ p.type = .INT ∨ p.type = .VECTOR2 ∨
      p.type = .VECTOR3 ∨ p.type = .VECTOR4) :
    (storedChannels p h).length =
      getAnimationPropertyComponentCount p ANIMATE_UNIFORM := by
  rcases hK with ht | ht | ht | ht | ht <;>
    simp only [storedChannels, getAnimationPropertyComponentCount,
      ANIMATE_UNIFORM, ht, if_pos rfl] <;>
    try simp
  · by_cases hc : p.count = 1 <;> simp [hc]
  · by_cases hc : p.count = 1 <;> simp [hc]

theorem intBlend_fst {p : MaterialParameter} (h : Heap) (v : AnimationValue)
    (w : ℚ) (ht : p.type = .INT) (hc : ¬ p.count = 1) :
    (setAnimationPropertyValue p h ANIMATE_UNIFORM v w).1 = p := by
  simp [setAnimationPropertyValue, ht, hc]

theorem intBlend_bufI {p : MaterialParameter} {h : Heap} {a : ℕ} {xs : List ℤ}
    (v : AnimationValue) (w : ℚ)
    (ht : p.type = .INT) (hc : ¬ p.count = 1)
    (ha : p.u = .uptr a) (hl : lookupA h.iblocks a = some xs)
    {i : ℕ} (hi : i < p.count) :
    bufI (setAnimationPropertyValue p h ANIMATE_UNIFORM v w).2 a i =
      ratTrunc (lerp w ((xs.getD i 0 : ℤ) : ℚ) (v.getFloat i)) := by
  have hp : p.u.asPtr = a := by rw [ha]; rfl
  have hbuf : heapI h a = xs := by simp [heapI, hl]
  have hheap : (setAnimationPropertyValue p h ANIMATE_UNIFORM v w).2 =
      storeI h a ((List.range p.count).map
          (fun i => ratTrunc (lerp w ((xs.getD i 0 : ℤ) : ℚ) (v.getFloat i)))
        ++ xs.drop p.count) := by
    simp [setAnimationPropertyValue, ht, hc, hp, hbuf]
  have hstore :
      lookupA (setAnimationPropertyValue p h ANIMATE_UNIFORM v w).2.iblocks a =
        some ((List.range p.count).map
            (fun i => ratTrunc (lerp w ((xs.getD i 0 : ℤ) : ℚ) (v.getFloat i)))
          ++ xs.drop p.count) := by
    rw [hheap, storeI]
    exact lookupA_storeA_self _ hl
  have hlt : i < ((List.range p.count).map
      (fun i => ratTrunc (lerp w ((xs.getD i 0 : ℤ) : ℚ) (v.getFloat i)))).length := by
    simpa using hi
  simp only [bufI, heapI, hstore, Option.getD_some]
  rw [getD_append_lt 0 hlt, getD_range_map _ 0 hi]

/-- Characterization of one blend step on an animatable, well-formed cell:
after `setAnimationPropertyValue` with weight `w`, flat channel `i` holds
`lerp w current[i] input[i]`, truncated through the int slot for kind
`INT`. -/
theorem blend_channels (p : MaterialParameter) (h : Heap) (v : AnimationValue)
    (w : ℚ)
    (hK : p.type = .FLOAT ∨ p.type = .INT ∨ p.type = .VECTOR2 ∨
      p.type = .VECTOR3 ∨ p.type = .VECTOR4)
    (hwf : animWF p h = true) :
    storedChannels (setAnimationPropertyValue p h ANIMATE_UNIFORM v w).1
        (setAnimationPropertyValue p h ANIMATE_UNIFORM v w).2 =
      (List.range (getAnimationPropertyComponentCount p ANIMATE_UNIFORM)).map
        (fun i => if p.type = .INT
          then ((ratTrunc (lerp w ((storedChannels p h).getD i 0)
              (v.getFloat i)) : ℤ) : ℚ)
          else lerp w ((storedChannels p h).getD i 0) (v.getFloat i)) := by
  rcases hK with ht | ht | ht | ht | ht
  · -- FLOAT
    by_cases hc : p.count = 1
    · obtain ⟨x, hu⟩ := animWF_float_scalar ht hc hwf
      simp [setAnimationPropertyValue, storedChannels,
        getAnimationPropertyComponentCount, ht, hc, hu, UnionVal.asFloat,
        List.range_succ, List.range_zero]
    · obtain ⟨a, xs, hu, hl, _hlen⟩ := animWF_float_array ht hc hwf
      have h1 : setAnimationPropertyValue p h ANIMATE_UNIFORM v w =
          applyAnimationValue p h v w 1 := by
        simp [setAnimationPropertyValue, ht, hc]
      rw [h1, applyAnim_fst]
      simp only [storedChannels, getAnimationPropertyComponentCount, ht,
        if_neg hc, if_pos rfl]
      apply List.map_congr_left
      intro i hi
      have hi' : i < p.count := List.mem_range.mp hi
      have hbF := applyAnim_bufF v w 1 hu hl (show i < p.count * 1 by omega)
      rw [hu]
      simp only [UnionVal.asPtr]
      rw [hbF, getD_range_map _ 0 hi']
      simp [bufF_eq_getD hl]
  · -- INT
    by_cases hc : p.count = 1
    · obtain ⟨z, hu⟩ := animWF_int_scalar ht hc hwf
      simp [setAnimationPropertyValue, storedChannels,
        getAnimationPropertyComponentCount, ht, hc, hu, UnionVal.asInt,
        List.range_succ, List.range_zero]
    · obtain ⟨a, xs, hu, hl, _hlen⟩ := animWF_int_array ht hc hwf
      rw [intBlend_fst h v w ht hc]
      simp only [storedChannels, getAnimationPropertyComponentCount, ht,
        if_neg hc, if_pos rfl]
      apply List.map_congr_left
      intro i hi
      have hi' : i < p.count := List.mem_range.mp hi
      have hbI := intBlend_bufI v w ht hc hu hl hi'
      rw [hu]
      simp only [UnionVal.asPtr]
      rw [hbI, getD_range_map _ 0 hi']
      simp [bufI_eq_getD hl]
  · -- VECTOR2
    obtain ⟨a, xs, hu, hl, _hlen⟩ := animWF_vec2 ht hwf
    have h1 : setAnimationPropertyValue p h ANIMATE_UNIFORM v w =
        applyAnimationValue p h v w 2 := by
      simp [setAnimationPropertyValue, ht]
    rw [h1, applyAnim_fst]
    simp only [storedChannels, getAnimationPropertyComponentCount, ht,
      if_pos rfl]
    apply List.map_congr_left
    intro i hi
    have hi' : i < 2 * p.count := List.mem_range.mp hi
    have hbF := applyAnim_bufF v w 2 hu hl (show i < p.count * 2 by omega)
    rw [hu]
    simp only [UnionVal.asPtr]
    rw [hbF, getD_range_map _ 0 hi']
    simp [bufF_eq_getD hl]
  · -- VECTOR3
    obtain ⟨a, xs, hu, hl, _hlen⟩ := animWF_vec3 ht hwf
    have h1 : setAnimationPropertyValue p h ANIMATE_UNIFORM v w =
        applyAnimationValue p h v w 3 := by
      simp [setAnimationPropertyValue, ht]
    rw [h1, applyAnim_fst]
    simp only [storedChannels, getAnimationPropertyComponentCount, ht,
      if_pos rfl]
    apply List.map_congr_left
    intro i hi
    have hi' : i < 3 * p.count := List.mem_range.mp hi
    have hbF := applyAnim_bufF v w 3 hu hl (show i < p.count * 3 by omega)
    rw [hu]
    simp only [UnionVal.asPtr]
    rw [hbF, getD_range_map _ 0 hi']
    simp [bufF_eq_getD hl]
  · -- VECTOR4
    obtain ⟨a, xs, hu, hl, _hlen⟩ := animWF_vec4 ht hwf
    have h1 : setAnimationPropertyValue p h ANIMATE_UNIFORM v w =
        applyAnimationValue p h v w 4 := by
      simp [setAnimationPropertyValue, ht]
    rw [h1, applyAnim_fst]
    simp only [storedChannels, getAnimationPropertyComponentCount, ht,
      if_pos rfl]
    apply List.map_congr_left
    intro i hi
    have hi' : i < 4 * p.count := List.mem_range.mp hi
    have hbF := applyAnim_bufF v w 4 hu hl (show i < p.count * 4 by omega)
    rw [hu]
    simp only [UnionVal.asPtr]
    rw [hbF, getD_range_map _ 0 hi']
    simp [bufF_eq_getD hl]

/-- C1 counterexample: for an Int parameter holding `0`, blending with
weight `1` toward the input channel `5/2` stores `2` — the float-valued
lerp result is pushed through C++ int conversion — so the stored channel
does not equal the input channel as the claim states for kind Int. -/
theorem C1_int_weight_one_counterexample :
    storedChannels
        (setAnimationPropertyValue
          (setValueInt (mkMaterialParameter "i") emptyHeap 0).1
          (setValueInt (mkMaterialParameter "i") emptyHeap 0).2
          ANIMATE_UNIFORM ⟨fun _ => (5 : ℚ)/2⟩ 1).1
        (setAnimationPropertyValue
          (setValueInt (mkMaterialParameter "i") emptyHeap 0).1
          (setValueInt (mkMaterialParameter "i") emptyHeap 0).2
          ANIMATE_UNIFORM ⟨fun _ => (5 : ℚ)/2⟩ 1).2 = [(2 : ℚ)] ∧
    (2 : ℚ) ≠ 5/2 := by
  constructor
  · have htr : ratTrunc (lerp 1 (0 : ℚ) ((5 : ℚ)/2)) = 2 := by
      rw [lerp_one, ratTrunc_eq_floor_or_ceil, if_pos (by norm_num),
        Int.floor_eq_iff]
      norm_num
    simp [setValueInt, clearValue, mkMaterialParameter, emptyHeap,
      setAnimationPropertyValue, storedChannels, UnionVal.asInt,
      AnimationValue.getFloat, htr]
  · norm_num

/-- C1 (amended): for every animatable parameter (kinds Float, Int,
Vector2, Vector3, Vector4) in a well-formed state and every input channel
vector, blending with weight `0` leaves every stored channel unchanged,
and blending with weight `1` sets every stored channel equal to the input
channel for the float-backed kinds, and to the truncation toward zero of
the input channel for kind Int (hence equal whenever the input channel is
an integer). -/
theorem C1_blend_endpoints (p : MaterialParameter) (h : Heap)
    (v : AnimationValue)
    (hK : p.type = .FLOAT ∨ p.type = .INT ∨ p.type = .VECTOR2 ∨
      p.type = .VECTOR3 ∨ p.type = .VECTOR4)
    (hwf : animWF p h = true) :
    storedChannels (setAnimationPropertyValue p h ANIMATE_UNIFORM v 0).1
        (setAnimationPropertyValue p h ANIMATE_UNIFORM v 0).2 =
      storedChannels p h ∧
    storedChannels (setAnimationPropertyValue p h ANIMATE_UNIFORM v 1).1
        (setAnimationPropertyValue p h ANIMATE_UNIFORM v 1).2 =
      (List.range (getAnimationPropertyComponentCount p ANIMATE_UNIFORM)).map
        (fun i => if p.type = .INT
          then ((ratTrunc (v.getFloat i) : ℤ) : ℚ) else v.getFloat i) := by
  constructor
  · rw [blend_channels p h v 0 hK hwf]
    have hlen := storedChannels_length (h := h) hK
    conv_rhs => rw [list_eq_range_map (storedChannels p h) 0 hlen]
    apply List.map_congr_left
    intro i _hi
    by_cases hINT : p.type = .INT
    · rw [if_pos hINT]
      obtain ⟨z, hz⟩ := storedChannels_int_cast hINT i
      rw [hz, lerp_zero, ratTrunc_intCast]
    · rw [if_neg hINT, lerp_zero]
  · rw [blend_channels p h v 1 hK hwf]
    apply List.map_congr_left
    intro i _hi
    by_cases hINT : p.type = .INT
    · rw [if_pos hINT, if_pos hINT, lerp_one]
    · rw [if_neg hINT, if_neg hINT, lerp_one]

/-- Witness for C1 (amended) at a Vector3 cell holding `(1,2,3)` with
input channels `(4,5,6)`. -/
theorem C1_blend_endpoints_witness :
    storedChannels
        (setAnimationPropertyValue
          (⟨.VECTOR3, 1, true, "v", none, .uptr 1⟩ : MaterialParameter)
          (⟨[(1, [1, 2, 3])], [], [], [], 2, 0, 0⟩ : Heap) ANIMATE_UNIFORM
          ⟨fun i => if i = 0 then 4 else if i = 1 then 5 else 6⟩ 0).1
        (setAnimationPropertyValue
          (⟨.VECTOR3, 1, true, "v", none, .uptr 1⟩ : MaterialParameter)
          (⟨[(1, [1, 2, 3])], [], [], [], 2, 0, 0⟩ : Heap) ANIMATE_UNIFORM
          ⟨fun i => if i = 0 then 4 else if i = 1 then 5 else 6⟩ 0).2 =
      storedChannels (⟨.VECTOR3, 1, true, "v", none, .uptr 1⟩ : MaterialParameter)
        (⟨[(1, [1, 2, 3])], [], [], [], 2, 0, 0⟩ : Heap) ∧
    storedChannels
        (setAnimationPropertyValue
          (⟨.VECTOR3, 1, true, "v", none, .uptr 1⟩ : MaterialParameter)
          (⟨[(1, [1, 2, 3])], [], [], [], 2, 0, 0⟩ : Heap) ANIMATE_UNIFORM
          ⟨fun i => if i = 0 then 4 else if i = 1 then 5 else 6⟩ 1).1
        (setAnimationPropertyValue
          (⟨.VECTOR3, 1, true, "v", none, .uptr 1⟩ : MaterialParameter)
          (⟨[(1, [1, 2, 3])], [], [], [], 2, 0, 0⟩ : Heap) ANIMATE_UNIFORM
          ⟨fun i => if i = 0 then 4 else if i = 1 then 5 else 6⟩ 1).2 =
      (List.range (getAnimationPropertyComponentCount
          (⟨.VECTOR3, 1, true, "v", none, .uptr 1⟩ : MaterialParameter)
          ANIMATE_UNIFORM)).map
        (fun i => if (⟨.VECTOR3, 1, true, "v", none, .uptr 1⟩ :
            MaterialParameter).type = .INT
          then ((ratTrunc ((⟨fun i => if i = 0 then 4 else if i = 1 then 5
              else 6⟩ : AnimationValue).getFloat i) : ℤ) : ℚ)
          else (⟨fun i => if i = 0 then 4 else if i = 1 then 5 else 6⟩ :
            AnimationValue).getFloat i) :=
  C1_blend_endpoints
    (⟨.VECTOR3, 1, true, "v", none, .uptr 1⟩ : MaterialParameter)
    (⟨[(1, [1, 2, 3])], [], [], [], 2, 0, 0⟩ : Heap)
    ⟨fun i => if i = 0 then 4 else if i = 1 then 5 else 6⟩
    (Or.inr (Or.inr (Or.inr (Or.inl rfl)))) (by decide)

theorem getFloat_f (v : AnimationValue) (i : ℕ) : v.getFloat i = v.f i := rfl

/-- Characterization of the read step: `getAnimationPropertyValue` copies
flat channel `i` of a well-formed animatable cell into channel `i` of the
animation value. -/
theorem read_getFloat (p : MaterialParameter) (h : Heap) (v : AnimationValue)
    (hK : p.type = .FLOAT ∨ p.type = .INT ∨ p.type = .VECTOR2 ∨
      p.type = .VECTOR3 ∨ p.type = .VECTOR4)
    (hwf : animWF p h = true) {i : ℕ}
    (hi : i < getAnimationPropertyComponentCount p ANIMATE_UNIFORM) :
    (getAnimationPropertyValue p h ANIMATE_UNIFORM v).getFloat i =
      (storedChannels p h).getD i 0 := by
  rcases hK with ht | ht | ht | ht | ht
  · -- FLOAT
    by_cases hc : p.count = 1
    · obtain ⟨x, hu⟩ := animWF_float_scalar ht hc hwf
      have hi0 : i = 0 := by
        simp only [getAnimationPropertyComponentCount, ht, if_pos rfl,
          if_true, hc] at hi
        omega
      subst hi0
      simp [getAnimationPropertyValue, getFloat_f, setFloat_f,
        storedChannels, ht, hc, hu, UnionVal.asFloat]
    · obtain ⟨a, xs, hu, hl, _hlen⟩ := animWF_float_array ht hc hwf
      have hi' : i < p.count := by
        simpa [getAnimationPropertyComponentCount, ht] using hi
      simp only [getAnimationPropertyValue, ht, if_neg hc, if_pos rfl,
        if_true, getFloat_f, storedChannels]
      rw [foldl_setFloat_f, if_pos hi', getD_range_map _ 0 hi']
  · -- INT
    by_cases hc : p.count = 1
    · obtain ⟨z, hu⟩ := animWF_int_scalar ht hc hwf
      have hi0 : i = 0 := by
        simp only [getAnimationPropertyComponentCount, ht, if_pos rfl,
          if_true, hc] at hi
        omega
      subst hi0
      simp [getAnimationPropertyValue, getFloat_f, setFloat_f,
        storedChannels, ht, hc, hu, UnionVal.asInt]
    · obtain ⟨a, xs, hu, hl, _hlen⟩ := animWF_int_array ht hc hwf
      have hi' : i < p.count := by
        simpa [getAnimationPropertyComponentCount, ht] using hi
      simp only [getAnimationPropertyValue, ht, if_neg hc, if_pos rfl,
        if_true, getFloat_f, storedChannels]
      rw [foldl_setFloat_f, if_pos hi', getD_range_map _ 0 hi']
  · -- VECTOR2
    have hi' : i < 2 * p.count := by
      simpa [getAnimationPropertyComponentCount, ht] using hi
    simp only [getAnimationPropertyValue, ht, if_pos rfl, if_true,
      getFloat_f, storedChannels]
    rw [foldl_setFloats_f, if_pos (by omega), getD_range_map _ 0 hi']
  · -- VECTOR3
    have hi' : i < 3 * p.count := by
      simpa [getAnimationPropertyComponentCount, ht] using hi
    simp only [getAnimationPropertyValue, ht, if_pos rfl, if_true,
      getFloat_f, storedChannels]
    rw [foldl_setFloats_f, if_pos (by omega), getD_range_map _ 0 hi']
  · -- VECTOR4
    have hi' : i < 4 * p.count := by
      simpa [getAnimationPropertyComponentCount, ht] using hi
    simp only [getAnimationPropertyValue, ht, if_pos rfl, if_true,
      getFloat_f, storedChannels]
    rw [foldl_setFloats_f, if_pos (by omega), getD_range_map _ 0 hi']

/-- C6: for every animatable parameter in a well-formed state, reading the
channels with `getAnimationPropertyValue` and then blending that result
back with weight `1` leaves every stored channel equal to its pre-read
state. -/
theorem C6_read_blend_roundtrip (p : MaterialParameter) (h : Heap)
    (v : AnimationValue)
    (hK : p.type = .FLOAT ∨ p.type = .INT ∨ p.type = .VECTOR2 ∨
      p.type = .VECTOR3 ∨ p.type = .VECTOR4)
    (hwf : animWF p h = true) :
    storedChannels
        (setAnimationPropertyValue p h ANIMATE_UNIFORM
          (getAnimationPropertyValue p h ANIMATE_UNIFORM v) 1).1
        (setAnimationPropertyValue p h ANIMATE_UNIFORM
          (getAnimationPropertyValue p h ANIMATE_UNIFORM v) 1).2 =
      storedChannels p h := by
  rw [blend_channels p h _ 1 hK hwf]
  have hlen := storedChannels_length (h := h) hK
  conv_rhs => rw [list_eq_range_map (storedChannels p h) 0 hlen]
  apply List.map_congr_left
  intro i hi
  have hi' : i < getAnimationPropertyComponentCount p ANIMATE_UNIFORM :=
    List.mem_range.mp hi
  rw [read_getFloat p h v hK hwf hi', lerp_one]
  by_cases hINT : p.type = .INT
  · rw [if_pos hINT]
    obtain ⟨z, hz⟩ := storedChannels_int_cast hINT i
    rw [hz, ratTrunc_intCast]
  · rw [if_neg hINT]

/-- Witness for C6 at a Vector3 cell holding `(1,2,3)`. -/
theorem C6_read_blend_roundtrip_witness :
    storedChannels
        (setAnimationPropertyValue
          (⟨.VECTOR3, 1, true, "w", none, .uptr 1⟩ : MaterialParameter)
          (⟨[(1, [1, 2, 3])], [], [], [], 2, 0, 0⟩ : Heap) ANIMATE_UNIFORM
          (getAnimationPropertyValue
            (⟨.VECTOR3, 1, true, "w", none, .uptr 1⟩ : MaterialParameter)
            (⟨[(1, [1, 2, 3])], [], [], [], 2, 0, 0⟩ : Heap) ANIMATE_UNIFORM
            ⟨fun _ => 0⟩) 1).1
        (setAnimationPropertyValue
          (⟨.VECTOR3, 1, true, "w", none, .uptr 1⟩ : MaterialParameter)
          (⟨[(1, [1, 2, 3])], [], [], [], 2, 0, 0⟩ : Heap) ANIMATE_UNIFORM
          (getAnimationPropertyValue
            (⟨.VECTOR3, 1, true, "w", none, .uptr 1⟩ : MaterialParameter)
            (⟨[(1, [1, 2, 3])], [], [], [], 2, 0, 0⟩ : Heap) ANIMATE_UNIFORM
            ⟨fun _ => 0⟩) 1).2 =
      storedChannels (⟨.VECTOR3, 1, true, "w", none, .uptr 1⟩ : MaterialParameter)
        (⟨[(1, [1, 2, 3])], [], [], [], 2, 0, 0⟩ : Heap) :=
  C6_read_blend_roundtrip
    (⟨.VECTOR3, 1, true, "w", none, .uptr 1⟩ : MaterialParameter)
    (⟨[(1, [1, 2, 3])], [], [], [], 2, 0, 0⟩ : Heap) ⟨fun _ => 0⟩
    (Or.inr (Or.inr (Or.inr (Or.inl rfl)))) (by decide)

/-- C9: for Int parameters (scalar or array), the float-valued lerp result
is stored back through C++ float-to-int conversion, which truncates toward
zero: the stored value is the floor for nonnegative results and the
ceiling for negative ones, and in particular `5/2` stores as `2` and
`-5/2` as `-2`, not as the rounded-to-nearest values. -/
theorem C9_int_blend_truncates :
    (∀ (p : MaterialParameter) (h : Heap) (v : AnimationValue) (w : ℚ)
        (z : ℤ), p.type = .INT → p.count = 1 → p.u = .uint z →
      (setAnimationPropertyValue p h ANIMATE_UNIFORM v w).1.u =
        .uint (if 0 ≤ lerp w ((z : ℤ) : ℚ) (v.getFloat 0)
          then ⌊lerp w ((z : ℤ) : ℚ) (v.getFloat 0)⌋
          else ⌈lerp w ((z : ℤ) : ℚ) (v.getFloat 0)⌉)) ∧
    (∀ (p : MaterialParameter) (h : Heap) (v : AnimationValue) (w : ℚ)
        (a : ℕ) (xs : List ℤ), p.type = .INT → ¬ p.count = 1 →
        p.u = .uptr a → lookupA h.iblocks a = some xs →
      ∀ i, i < p.count →
        bufI (setAnimationPropertyValue p h ANIMATE_UNIFORM v w).2 a i =
          (if 0 ≤ lerp w ((xs.getD i 0 : ℤ) : ℚ) (v.getFloat i)
            then ⌊lerp w ((xs.getD i 0 : ℤ) : ℚ) (v.getFloat i)⌋
            else ⌈lerp w ((xs.getD i 0 : ℤ) : ℚ) (v.getFloat i)⌉)) ∧
    ratTrunc ((5 : ℚ)/2) = 2 ∧ ratTrunc (-((5 : ℚ)/2)) = -2 ∧
    ratTrunc ((5 : ℚ)/2) ≠ round ((5 : ℚ)/2) := by
  refine ⟨?_, ?_, ?_, ?_, ?_⟩
  · intro p h v w z ht hc hu
    rw [← ratTrunc_eq_floor_or_ceil]
    simp [setAnimationPropertyValue, ht, hc, hu, UnionVal.asInt]
  · intro p h v w a xs ht hc hu hl i hi
    rw [intBlend_bufI v w ht hc hu hl hi, ratTrunc_eq_floor_or_ceil]
  · rw [ratTrunc_eq_floor_or_ceil, if_pos (by norm_num), Int.floor_eq_iff]
    norm_num
  · rw [ratTrunc_eq_floor_or_ceil, if_neg (by norm_num), Int.ceil_eq_iff]
    norm_num
  · have h1 : ratTrunc ((5 : ℚ)/2) = 2 := by
      rw [ratTrunc_eq_floor_or_ceil, if_pos (by norm_num), Int.floor_eq_iff]
      norm_num
    have h2 : round ((5 : ℚ)/2) = 3 := by
      rw [round_eq, Int.floor_eq_iff]
      norm_num
    rw [h1, h2]
    norm_num

/-- Witness for C9 on a scalar Int cell holding `0` blended with weight
`1` toward input channel `5/2`. -/
theorem C9_int_blend_truncates_witness :
    (⟨.INT, 1, false, "i", none, .uint 0⟩ : MaterialParameter).type = .INT ∧
    (setAnimationPropertyValue
        (⟨.INT, 1, false, "i", none, .uint 0⟩ : MaterialParameter)
        emptyHeap ANIMATE_UNIFORM ⟨fun _ => (5 : ℚ)/2⟩ 1).1.u =
      .uint (if 0 ≤ lerp 1 ((0 : ℤ) : ℚ)
            ((⟨fun _ => (5 : ℚ)/2⟩ : AnimationValue).getFloat 0)
        then ⌊lerp 1 ((0 : ℤ) : ℚ)
            ((⟨fun _ => (5 : ℚ)/2⟩ : AnimationValue).getFloat 0)⌋
        else ⌈lerp 1 ((0 : ℤ) : ℚ)
            ((⟨fun _ => (5 : ℚ)/2⟩ : AnimationValue).getFloat 0)⌉) :=
  ⟨rfl, C9_int_blend_truncates.1
    (⟨.INT, 1, false, "i", none, .uint 0⟩ : MaterialParameter)
    emptyHeap ⟨fun _ => (5 : ℚ)/2⟩ 1 0 rfl rfl rfl⟩

theorem allocF_fst (h : Heap) (xs : List ℚ) : (allocF h xs).1 = h.next := rfl

theorem allocF_newCount (h : Heap) (xs : List ℚ) :
    (allocF h xs).2.newCount = h.newCount + 1 := rfl

theorem allocF_deleteCount (h : Heap) (xs : List ℚ) :
    (allocF h xs).2.deleteCount = h.deleteCount := rfl

theorem setValueFloat_eq (p : MaterialParameter) (h : Heap) (x : ℚ) :
    setValueFloat p h x =
      ({(clearValue p h).1 with u := .ufloat x, type := .FLOAT },
        (clearValue p h).2) := rfl

theorem setValueInt_eq (p : MaterialParameter) (h : Heap) (x : ℤ) :
    setValueInt p h x =
      ({(clearValue p h).1 with u := .uint x, type := .INT },
        (clearValue p h).2) := rfl

theorem setValueFloatArray_eq (p : MaterialParameter) (h : Heap) (a n : ℕ) :
    setValueFloatArray p h a n =
      ({(clearValue p h).1 with u := .uptr a, count := n, type := .FLOAT },
        (clearValue p h).2) := rfl

theorem setValueIntArray_eq (p : MaterialParameter) (h : Heap) (a n : ℕ) :
    setValueIntArray p h a n =
      ({(clearValue p h).1 with u := .uptr a, count := n, type := .INT },
        (clearValue p h).2) := rfl

theorem setValueVector2_eq (p : MaterialParameter) (h : Heap) (x y : ℚ) :
    setValueVector2 p h x y =
      ({(clearValue p h).1 with u := UnionVal.uptr ((clearValue p h).2.next), dynamic := true, count := 1, type := .VECTOR2 },
        (allocF (clearValue p h).2 [x, y]).2) := rfl

theorem setValueVector2Array_eq (p : MaterialParameter) (h : Heap) (a n : ℕ) :
    setValueVector2Array p h a n =
      ({(clearValue p h).1 with u := .uptr a, count := n, type := .VECTOR2 },
        (clearValue p h).2) := rfl

theorem setValueVector3_eq (p : MaterialParameter) (h : Heap) (x y z : ℚ) :
    setValueVector3 p h x y z =
      ({(clearValue p h).1 with u := UnionVal.uptr ((clearValue p h).2.next), dynamic := true, count := 1, type := .VECTOR3 },
        (allocF (clearValue p h).2 [x, y, z]).2) := rfl

theorem setValueVector3Array_eq (p : MaterialParameter) (h : Heap) (a n : ℕ) :
    setValueVector3Array p h a n =
      ({(clearValue p h).1 with u := .uptr a, count := n, type := .VECTOR3 },
        (clearValue p h).2) := rfl

theorem setValueVector4_eq (p : MaterialParameter) (h : Heap)
    (x y z w : ℚ) :
    setValueVector4 p h x y z w =
      ({(clearValue p h).1 with u := UnionVal.uptr ((clearValue p h).2.next), dynamic := true, count := 1, type := .VECTOR4 },
        (allocF (clearValue p h).2 [x, y, z, w]).2) := rfl

theorem setValueVector4Array_eq (p : MaterialParameter) (h : Heap) (a n : ℕ) :
    setValueVector4Array p h a n =
      ({(clearValue p h).1 with u := .uptr a, count := n, type := .VECTOR4 },
        (clearValue p h).2) := rfl

theorem setValueMatrix_eq (p : MaterialParameter) (h : Heap) (m : List ℚ) :
    setValueMatrix p h m =
      if p.dynamic = true ∧ p.count = 1 ∧ p.type = .MATRIX ∧ p.u.asPtr ≠ 0 then
        ({p with dynamic := true, count := 1, type := .MATRIX },
          storeF h p.u.asPtr m)
      else
        ({(clearValue p h).1 with u := UnionVal.uptr ((clearValue p h).2.next), dynamic := true, count := 1, type := .MATRIX },
          (allocF (clearValue p h).2 m).2) := rfl

theorem setValueMatrixArray_eq (p : MaterialParameter) (h : Heap) (a n : ℕ) :
    setValueMatrixArray p h a n =
      ({(clearValue p h).1 with u := .uptr a, count := n, type := .MATRIX },
        (clearValue p h).2) := rfl

theorem setValueSampler_eq (p : MaterialParameter) (h : Heap) (s : ℕ) :
    setValueSampler p h s =
      if s ≠ 0 then
        ({(clearValue p h).1 with u := .uptr s, type := .SAMPLER },
          addRefS (clearValue p h).2 s)
      else clearValue p h := rfl

theorem clearValue_ledger (p : MaterialParameter) (h : Heap) :
    (clearValue p h).2.newCount = h.newCount ∧
    (clearValue p h).2.deleteCount = h.deleteCount + ownedAllocs p ∧
    ownedAllocs (clearValue p h).1 = 0 ∧
    (clearValue p h).2.next = h.next ∧
    (clearValue p h).1.dynamic = false := by
  by_cases hd : p.dynamic
  · cases ht : p.type <;>
      (simp [clearValue, ownedAllocs, hd, ht, deleteF, deleteI, releaseM] <;>
        by_cases hz : p.u.asPtr = 0 <;> simp [hz])
  · cases ht : p.type <;>
      (simp [clearValue, ownedAllocs, hd, ht, releaseS] <;>
        by_cases hz : p.u.asPtr = 0 <;> simp [hz])

theorem storeF_newCount (h : Heap) (a : ℕ) (xs : List ℚ) :
    (storeF h a xs).newCount = h.newCount := rfl

theorem storeF_deleteCount (h : Heap) (a : ℕ) (xs : List ℚ) :
    (storeF h a xs).deleteCount = h.deleteCount := rfl

theorem addRefS_newCount (h : Heap) (a : ℕ) :
    (addRefS h a).newCount = h.newCount := by
  unfold addRefS; split <;> rfl

theorem addRefS_deleteCount (h : Heap) (a : ℕ) :
    (addRefS h a).deleteCount = h.deleteCount := by
  unfold addRefS; split <;> rfl

theorem addRefM_newCount (h : Heap) (a : ℕ) :
    (addRefM h a).newCount = h.newCount := by
  unfold addRefM
  split
  · rfl
  · split <;> rfl

theorem addRefM_deleteCount (h : Heap) (a : ℕ) :
    (addRefM h a).deleteCount = h.deleteCount := by
  unfold addRefM
  split
  · rfl
  · split <;> rfl

theorem ownedAllocs_uzero (q : MaterialParameter) (hz : q.u = .uzero) :
    ownedAllocs q = 0 := by
  cases ht : q.type <;> simp [ownedAllocs, ht, hz, UnionVal.asPtr]

theorem clearValue_dynamic_false (p : MaterialParameter) (h : Heap) :
    (clearValue p h).1.dynamic = false :=
  (clearValue_ledger p h).2.2.2.2

theorem clearValue_uzero_heap (t : MaterialParameter) (h : Heap)
    (hz : t.u = .uzero) : (clearValue t h).2 = h := by
  by_cases hd : t.dynamic <;> cases ht : t.type <;>
    simp [clearValue, hd, ht, hz, deleteF, deleteI, releaseM, UnionVal.asPtr]

theorem lookupA_storeA_none {α : Type} {l : List (ℕ × α)} {a : ℕ} (x : α)
    (hy : lookupA l a = none) : lookupA (storeA l a x) a = none := by
  induction l with
  | nil => simp [storeA, lookupA]
  | cons q t ih =>
    by_cases hq : q.1 = a
    · simp [lookupA, hq] at hy
    · simp only [lookupA, storeA, if_neg hq] at hy ⊢
      exact ih hy

theorem refCountS_allocF (h : Heap) (xs : List ℚ) (s : ℕ) :
    refCountS (allocF h xs).2 s = refCountS h s := rfl

theorem refCountS_storeF (h : Heap) (a : ℕ) (xs : List ℚ) (s : ℕ) :
    refCountS (storeF h a xs) s = refCountS h s := rfl

theorem refCountS_deleteF (h : Heap) (a s : ℕ) :
    refCountS (deleteF h a) s = refCountS h s := by
  unfold deleteF; split <;> rfl

theorem refCountS_deleteI (h : Heap) (a s : ℕ) :
    refCountS (deleteI h a) s = refCountS h s := by
  unfold deleteI; split <;> rfl

theorem refCountS_releaseM (h : Heap) (a s : ℕ) :
    refCountS (releaseM h a) s = refCountS h s := by
  unfold releaseM; split <;> rfl

theorem refCountS_addRefM (h : Heap) (a s : ℕ) :
    refCountS (addRefM h a) s = refCountS h s := by
  unfold addRefM
  split
  · rfl
  · split <;> rfl

theorem refCountS_releaseS_self (h : Heap) (a : ℕ) :
    refCountS (releaseS h a) a = refCountS h a - 1 := by
  unfold releaseS refCountS
  cases hl : lookupA h.samplers a with
  | none => rw [lookupA_storeA_none _ hl]; rfl
  | some n => rw [lookupA_storeA_self _ hl]; rfl

theorem refCountS_releaseS_ne (h : Heap) (a s : ℕ) (hne : s ≠ a) :
    refCountS (releaseS h a) s = refCountS h s := by
  unfold releaseS refCountS
  rw [lookupA_storeA_ne _ _ _ _ hne]

theorem refCountS_addRefS_self (h : Heap) (a : ℕ) :
    refCountS (addRefS h a) a = refCountS h a + 1 := by
  unfold addRefS refCountS
  cases hl : lookupA h.samplers a with
  | none => simp [hl, lookupA_cons_self]
  | some n => simp [hl, lookupA_storeA_self _ hl]

theorem refCountS_addRefS_ne (h : Heap) (a s : ℕ) (hne : s ≠ a) :
    refCountS (addRefS h a) s = refCountS h s := by
  unfold addRefS refCountS
  split
  · rw [lookupA_storeA_ne _ _ _ _ hne]
  · rw [lookupA_cons_ne _ _ _ _ hne]

theorem refCountM_allocF (h : Heap) (xs : List ℚ) (m : ℕ) :
    refCountM (allocF h xs).2 m = refCountM h m := rfl

theorem refCountM_storeF (h : Heap) (a : ℕ) (xs : List ℚ) (m : ℕ) :
    refCountM (storeF h a xs) m = refCountM h m := rfl

theorem refCountM_deleteF (h : Heap) (a m : ℕ) :
    refCountM (deleteF h a) m = refCountM h m := by
  unfold deleteF; split <;> rfl

theorem refCountM_deleteI (h : Heap) (a m : ℕ) :
    refCountM (deleteI h a) m = refCountM h m := by
  unfold deleteI; split <;> rfl

theorem refCountM_releaseS (h : Heap) (a m : ℕ) :
    refCountM (releaseS h a) m = refCountM h m := rfl

theorem refCountM_addRefS (h : Heap) (a m : ℕ) :
    refCountM (addRefS h a) m = refCountM h m := by
  unfold addRefS
  split <;> rfl

theorem addRefM_zero (h : Heap) : addRefM h 0 = h := rfl

theorem releaseM_zero (h : Heap) : releaseM h 0 = h := rfl

theorem refCountM_releaseM_self (h : Heap) (a : ℕ) (ha : a ≠ 0) :
    refCountM (releaseM h a) a = refCountM h a - 1 := by
  unfold releaseM refCountM
  rw [if_neg ha]
  cases hl : lookupA h.methods a with
  | none => rw [lookupA_storeA_none _ hl]; rfl
  | some n => rw [lookupA_storeA_self _ hl]; rfl

theorem refCountM_releaseM_ne (h : Heap) (a m : ℕ) (hne : m ≠ a) :
    refCountM (releaseM h a) m = refCountM h m := by
  unfold releaseM refCountM
  split
  · rfl
  · rw [lookupA_storeA_ne _ _ _ _ hne]

theorem refCountM_addRefM_self (h : Heap) (a : ℕ) (ha : a ≠ 0) :
    refCountM (addRefM h a) a = refCountM h a + 1 := by
  unfold addRefM refCountM
  rw [if_neg ha]
  split
  · rename_i hl
    obtain ⟨n, hn⟩ := Option.isSome_iff_exists.mp hl
    simp [hn, lookupA_storeA_self _ hn]
  · rename_i hl
    have hn : lookupA h.methods a = none := Option.not_isSome_iff_eq_none.mp hl
    simp [hn, lookupA_cons_self]

theorem refCountM_addRefM_ne (h : Heap) (a m : ℕ) (hne : m ≠ a) :
    refCountM (addRefM h a) m = refCountM h m := by
  unfold addRefM refCountM
  split
  · rfl
  · split
    · rw [lookupA_storeA_ne _ _ _ _ hne]
    · rw [lookupA_cons_ne _ _ _ _ hne]

theorem clearValue_type (p : MaterialParameter) (h : Heap) :
    (clearValue p h).1.type = .NONE := by
  by_cases hd : p.dynamic <;> simp [clearValue, hd]

theorem heldS_clearValue (p : MaterialParameter) (h : Heap) (s : ℕ) :
    heldS (clearValue p h).1 s = 0 := by
  simp [heldS, clearValue_type]

theorem heldM_clearValue (p : MaterialParameter) (h : Heap) (m : ℕ) :
    heldM (clearValue p h).1 m = 0 := by
  simp [heldM, clearValue_type]

theorem clearValue_refS (p : MaterialParameter) (h : Heap) (s : ℕ)
    (hle : heldS p s ≤ refCountS h s) :
    refCountS (clearValue p h).2 s + heldS p s = refCountS h s := by
  by_cases hd : p.dynamic
  · have h0 : heldS p s = 0 := by simp [heldS, hd]
    rw [h0, Nat.add_zero]
    cases ht : p.type <;>
      simp [clearValue, hd, ht, refCountS_deleteF, refCountS_deleteI,
        refCountS_releaseM]
  · by_cases ht : p.type = .SAMPLER
    · by_cases hz : p.u.asPtr = 0
      · have h0 : heldS p s = 0 := by
          simp only [heldS, ht, hz]
          rw [if_neg]
          rintro ⟨-, -, rfl, hs0⟩
          exact hs0 rfl
        rw [h0, Nat.add_zero]
        simp [clearValue, hd, ht, hz]
      · by_cases hss : s = p.u.asPtr
        · have h1 : heldS p s = 1 := by
            simp [heldS, ht, hd, hss, hz]
          rw [h1]
          have hrel : (clearValue p h).2 = releaseS h p.u.asPtr := by
            simp [clearValue, hd, ht, hz]
          rw [hrel, hss, refCountS_releaseS_self]
          rw [h1, hss] at hle
          omega
        · have h0 : heldS p s = 0 := by
            simp only [heldS, ht]
            rw [if_neg]
            rintro ⟨-, -, hps, -⟩
            exact hss hps.symm
          rw [h0, Nat.add_zero]
          have hrel : (clearValue p h).2 = releaseS h p.u.asPtr := by
            simp [clearValue, hd, ht, hz]
          rw [hrel, refCountS_releaseS_ne _ _ _ hss]
    · have h0 : heldS p s = 0 := by simp [heldS, ht]
      rw [h0, Nat.add_zero]
      cases htt : p.type <;> simp_all [clearValue, hd]

theorem clearValue_refM (p : MaterialParameter) (h : Heap) (m : ℕ)
    (hle : heldM p m ≤ refCountM h m) :
    refCountM (clearValue p h).2 m + heldM p m = refCountM h m := by
  by_cases hd : p.dynamic
  · by_cases ht : p.type = .METHOD
    · by_cases hz : p.u.asPtr = 0
      · have h0 : heldM p m = 0 := by
          simp only [heldM, ht, hz]
          rw [if_neg]
          rintro ⟨-, -, rfl, hm0⟩
          exact hm0 rfl
        rw [h0, Nat.add_zero]
        simp [clearValue, hd, ht, hz, releaseM_zero]
      · by_cases hmm : m = p.u.asPtr
        · have h1 : heldM p m = 1 := by
            simp [heldM, ht, hd, hmm, hz]
          rw [h1]
          have hrel : (clearValue p h).2 = releaseM h p.u.asPtr := by
            simp [clearValue, hd, ht]
          rw [hrel, hmm, refCountM_releaseM_self _ _ hz]
          rw [h1, hmm] at hle
          omega
        · have h0 : heldM p m = 0 := by
            simp only [heldM, ht]
            rw [if_neg]
            rintro ⟨-, -, hpm, -⟩
            exact hmm hpm.symm
          rw [h0, Nat.add_zero]
          have hrel : (clearValue p h).2 = releaseM h p.u.asPtr := by
            simp [clearValue, hd, ht]
          rw [hrel, refCountM_releaseM_ne _ _ _ hmm]
    · have h0 : heldM p m = 0 := by simp [heldM, ht]
      rw [h0, Nat.add_zero]
      cases htt : p.type <;>
        simp_all [clearValue, hd, refCountM_deleteF, refCountM_deleteI]
  · have h0 : heldM p m = 0 := by simp [heldM, hd]
    rw [h0, Nat.add_zero]
    cases ht : p.type <;> simp [clearValue, hd, ht, refCountM_releaseS]
    split <;> simp [refCountM_releaseS]

theorem runMutOp_refS (op : MutOp) (p : MaterialParameter) (h : Heap)
    (s : ℕ) (hle : heldS p s ≤ refCountS h s) :
    refCountS (runMutOp op p h).2 s + heldS p s =
      refCountS h s + heldS (runMutOp op p h).1 s := by
  have base := clearValue_refS p h s hle
  cases op with
  | opClear =>
    simp only [runMutOp]
    rw [heldS_clearValue, Nat.add_zero]
    exact base
  | opFloat x =>
    simp only [runMutOp, setValueFloat_eq]
    set k := heldS p s with hk
    simpa [heldS] using base
  | opInt x =>
    simp only [runMutOp, setValueInt_eq]
    set k := heldS p s with hk
    simpa [heldS] using base
  | opFloatArray a n =>
    simp only [runMutOp, setValueFloatArray_eq]
    set k := heldS p s with hk
    simpa [heldS] using base
  | opIntArray a n =>
    simp only [runMutOp, setValueIntArray_eq]
    set k := heldS p s with hk
    simpa [heldS] using base
  | opVector2 x y =>
    simp only [runMutOp, setValueVector2_eq]
    set k := heldS p s with hk
    simpa [heldS, refCountS_allocF] using base
  | opVector2Array a n =>
    simp only [runMutOp, setValueVector2Array_eq]
    set k := heldS p s with hk
    simpa [heldS] using base
  | opVector3 x y z =>
    simp only [runMutOp, setValueVector3_eq]
    set k := heldS p s with hk
    simpa [heldS, refCountS_allocF] using base
  | opVector3Array a n =>
    simp only [runMutOp, setValueVector3Array_eq]
    set k := heldS p s with hk
    simpa [heldS] using base
  | opVector4 x y z w =>
    simp only [runMutOp, setValueVector4_eq]
    set k := heldS p s with hk
    simpa [heldS, refCountS_allocF] using base
  | opVector4Array a n =>
    simp only [runMutOp, setValueVector4Array_eq]
    set k := heldS p s with hk
    simpa [heldS] using base
  | opMatrix m =>
    simp only [runMutOp, setValueMatrix_eq]
    by_cases hq : p.dynamic = true ∧ p.count = 1 ∧ p.type = .MATRIX ∧
        p.u.asPtr ≠ 0
    · rw [if_pos hq]
      simp [refCountS_storeF, heldS, hq.2.2.1]
    · rw [if_neg hq]
      set k := heldS p s with hk
      simpa [heldS, refCountS_allocF] using base
  | opMatrixArray a n =>
    simp only [runMutOp, setValueMatrixArray_eq]
    set k := heldS p s with hk
    simpa [heldS] using base
  | opSampler s0 =>
    simp only [runMutOp, setValueSampler_eq]
    by_cases hs0 : s0 ≠ 0
    · rw [if_pos hs0]
      by_cases hss : s = s0
      · rw [hss, refCountS_addRefS_self]
        rw [hss] at base
        have h1 : heldS ({(clearValue p h).1 with u := UnionVal.uptr s0, type := MPType.SAMPLER }) s0 = 1 := by
          unfold heldS
          rw [if_pos ⟨rfl, clearValue_dynamic_false p h, rfl, hs0⟩]
        rw [h1]
        omega
      · rw [refCountS_addRefS_ne _ _ _ hss]
        have h1 : heldS ({(clearValue p h).1 with u := UnionVal.uptr s0, type := MPType.SAMPLER }) s = 0 := by
          simp only [heldS]
          rw [if_neg]
          rintro ⟨-, -, hps, -⟩
          exact hss (by simpa [UnionVal.asPtr] using hps.symm)
        rw [h1, Nat.add_zero]
        exact base
    · rw [if_neg hs0]
      rw [heldS_clearValue, Nat.add_zero]
      exact base

theorem runMutOp_refM (op : MutOp) (p : MaterialParameter) (h : Heap)
    (m : ℕ) (hle : heldM p m ≤ refCountM h m) :
    refCountM (runMutOp op p h).2 m + heldM p m =
      refCountM h m + heldM (runMutOp op p h).1 m := by
  have base := clearValue_refM p h m hle
  cases op with
  | opClear =>
    simp only [runMutOp]
    rw [heldM_clearValue, Nat.add_zero]
    exact base
  | opFloat x =>
    simp only [runMutOp, setValueFloat_eq]
    set k := heldM p m with hk
    simpa [heldM] using base
  | opInt x =>
    simp only [runMutOp, setValueInt_eq]
    set k := heldM p m with hk
    simpa [heldM] using base
  | opFloatArray a n =>
    simp only [runMutOp, setValueFloatArray_eq]
    set k := heldM p m with hk
    simpa [heldM] using base
  | opIntArray a n =>
    simp only [runMutOp, setValueIntArray_eq]
    set k := heldM p m with hk
    simpa [heldM] using base
  | opVector2 x y =>
    simp only [runMutOp, setValueVector2_eq]
    set k := heldM p m with hk
    simpa [heldM, refCountM_allocF] using base
  | opVector2Array a n =>
    simp only [runMutOp, setValueVector2Array_eq]
    set k := heldM p m with hk
    simpa [heldM] using base
  | opVector3 x y z =>
    simp only [runMutOp, setValueVector3_eq]
    set k := heldM p m with hk
    simpa [heldM, refCountM_allocF] using base
  | opVector3Array a n =>
    simp only [runMutOp, setValueVector3Array_eq]
    set k := heldM p m with hk
    simpa [heldM] using base
  | opVector4 x y z w =>
    simp only [runMutOp, setValueVector4_eq]
    set k := heldM p m with hk
    simpa [heldM, refCountM_allocF] using base
  | opVector4Array a n =>
    simp only [runMutOp, setValueVector4Array_eq]
    set k := heldM p m with hk
    simpa [heldM] using base
  | opMatrix mm =>
    simp only [runMutOp, setValueMatrix_eq]
    by_cases hq : p.dynamic = true ∧ p.count = 1 ∧ p.type = .MATRIX ∧
        p.u.asPtr ≠ 0
    · rw [if_pos hq]
      simp [refCountM_storeF, heldM, hq.2.2.1]
    · rw [if_neg hq]
      set k := heldM p m with hk
      simpa [heldM, refCountM_allocF] using base
  | opMatrixArray a n =>
    simp only [runMutOp, setValueMatrixArray_eq]
    set k := heldM p m with hk
    simpa [heldM] using base
  | opSampler s0 =>
    simp only [runMutOp, setValueSampler_eq]
    by_cases hs0 : s0 ≠ 0
    · rw [if_pos hs0]
      rw [refCountM_addRefS]
      set k := heldM p m with hk
      simpa [heldM] using base
    · rw [if_neg hs0]
      rw [heldM_clearValue, Nat.add_zero]
      exact base

theorem cloneInto_refS (src tgt : MaterialParameter) (h : Heap) (s : ℕ)
    (_ht0 : tgt.type = .NONE) (_hd0 : tgt.dynamic = false)
    (hu0 : tgt.u = .uzero) :
    refCountS (cloneInto src tgt h).2 s =
      refCountS h s + heldS (cloneInto src tgt h).1 s := by
  cases hs : src.type with
  | NONE =>
    simp only [cloneInto, hs]
    simp [heldS]
  | FLOAT =>
    simp only [cloneInto, hs]
    set T : MaterialParameter := {tgt with type := MPType.FLOAT, count := src.count, dynamic := src.dynamic, uniform := src.uniform} with hTdef
    have hTu : T.u = .uzero := hu0
    rw [setValueFloat_eq, clearValue_uzero_heap T h hTu]
    simp [heldS]
  | INT =>
    simp only [cloneInto, hs]
    set T : MaterialParameter := {tgt with type := MPType.INT, count := src.count, dynamic := src.dynamic, uniform := src.uniform} with hTdef
    have hTu : T.u = .uzero := hu0
    rw [setValueInt_eq, clearValue_uzero_heap T h hTu]
    simp [heldS]
  | VECTOR2 =>
    by_cases hcc : src.count = 1
    · simp only [cloneInto, hs, if_pos hcc]
      set T : MaterialParameter := {tgt with type := MPType.VECTOR2, count := src.count, dynamic := src.dynamic, uniform := src.uniform} with hTdef
      have hTu : T.u = .uzero := hu0
      rw [setValueVector2_eq, clearValue_uzero_heap T h hTu]
      simp [heldS, refCountS_allocF]
    · simp only [cloneInto, hs, if_neg hcc]
      set T : MaterialParameter := {tgt with type := MPType.VECTOR2, count := src.count, dynamic := src.dynamic, uniform := src.uniform} with hTdef
      have hTu : T.u = .uzero := hu0
      rw [setValueVector2Array_eq, clearValue_uzero_heap T h hTu]
      simp [heldS]
  | VECTOR3 =>
    by_cases hcc : src.count = 1
    · simp only [cloneInto, hs, if_pos hcc]
      set T : MaterialParameter := {tgt with type := MPType.VECTOR3, count := src.count, dynamic := src.dynamic, uniform := src.uniform} with hTdef
      have hTu : T.u = .uzero := hu0
      rw [setValueVector3_eq, clearValue_uzero_heap T h hTu]
      simp [heldS, refCountS_allocF]
    · simp only [cloneInto, hs, if_neg hcc]
      set T : MaterialParameter := {tgt with type := MPType.VECTOR3, count := src.count, dynamic := src.dynamic, uniform := src.uniform} with hTdef
      have hTu : T.u = .uzero := hu0
      rw [setValueVector3Array_eq, clearValue_uzero_heap T h hTu]
      simp [heldS]
  | VECTOR4 =>
    by_cases hcc : src.count = 1
    · simp only [cloneInto, hs, if_pos hcc]
      set T : MaterialParameter := {tgt with type := MPType.VECTOR4, count := src.count, dynamic := src.dynamic, uniform := src.uniform} with hTdef
      have hTu : T.u = .uzero := hu0
      rw [setValueVector4_eq, clearValue_uzero_heap T h hTu]
      simp [heldS, refCountS_allocF]
    · simp only [cloneInto, hs, if_neg hcc]
      set T : MaterialParameter := {tgt with type := MPType.VECTOR4, count := src.count, dynamic := src.dynamic, uniform := src.uniform} with hTdef
      have hTu : T.u = .uzero := hu0
      rw [setValueVector4Array_eq, clearValue_uzero_heap T h hTu]
      simp [heldS]
  | MATRIX =>
    by_cases hcc : src.count = 1
    · simp only [cloneInto, hs, if_pos hcc]
      set T : MaterialParameter := {tgt with type := MPType.MATRIX, count := src.count, dynamic := src.dynamic, uniform := src.uniform} with hTdef
      have hTu : T.u = .uzero := hu0
      rw [setValueMatrix_eq, if_neg (by simp [hTu, hu0, UnionVal.asPtr]),
        clearValue_uzero_heap T h hTu]
      simp [heldS, refCountS_allocF]
    · simp only [cloneInto, hs, if_neg hcc]
      set T : MaterialParameter := {tgt with type := MPType.MATRIX, count := src.count, dynamic := src.dynamic, uniform := src.uniform} with hTdef
      have hTu : T.u = .uzero := hu0
      rw [setValueMatrixArray_eq, clearValue_uzero_heap T h hTu]
      simp [heldS]
  | SAMPLER =>
    simp only [cloneInto, hs]
    set T : MaterialParameter := {tgt with type := MPType.SAMPLER, count := src.count, dynamic := src.dynamic, uniform := src.uniform} with hTdef
    have hTu : T.u = .uzero := hu0
    rw [setValueSampler_eq]
    by_cases hsp : src.u.asPtr ≠ 0
    · rw [if_pos hsp, clearValue_uzero_heap T h hTu]
      by_cases hss : s = src.u.asPtr
      · rw [hss, refCountS_addRefS_self]
        have h1 : heldS ({(clearValue T h).1 with u := UnionVal.uptr src.u.asPtr, type := MPType.SAMPLER }) src.u.asPtr = 1 := by
          unfold heldS
          rw [if_pos ⟨rfl, clearValue_dynamic_false T h, rfl, hsp⟩]
        rw [h1]
      · rw [refCountS_addRefS_ne _ _ _ hss]
        have h1 : heldS ({(clearValue T h).1 with u := UnionVal.uptr src.u.asPtr, type := MPType.SAMPLER }) s =
            0 := by
          simp only [heldS]
          rw [if_neg]
          rintro ⟨-, -, hps, -⟩
          exact hss (by simpa [UnionVal.asPtr] using hps.symm)
        rw [h1, Nat.add_zero]
    · rw [if_neg hsp, clearValue_uzero_heap T h hTu, heldS_clearValue,
        Nat.add_zero]
  | METHOD =>
    simp only [cloneInto, hs]
    rw [refCountS_addRefM]
    simp [heldS]

theorem cloneInto_refM (src tgt : MaterialParameter) (h : Heap) (m : ℕ)
    (_ht0 : tgt.type = .NONE) (_hd0 : tgt.dynamic = false)
    (hu0 : tgt.u = .uzero) (hsd : src.type = .METHOD → src.dynamic = true) :
    refCountM (cloneInto src tgt h).2 m =
      refCountM h m + heldM (cloneInto src tgt h).1 m := by
  cases hs : src.type with
  | NONE =>
    simp only [cloneInto, hs]
    simp [heldM]
  | FLOAT =>
    simp only [cloneInto, hs]
    set T : MaterialParameter := {tgt with type := MPType.FLOAT, count := src.count, dynamic := src.dynamic, uniform := src.uniform} with hTdef
    have hTu : T.u = .uzero := hu0
    rw [setValueFloat_eq, clearValue_uzero_heap T h hTu]
    simp [heldM]
  | INT =>
    simp only [cloneInto, hs]
    set T : MaterialParameter := {tgt with type := MPType.INT, count := src.count, dynamic := src.dynamic, uniform := src.uniform} with hTdef
    have hTu : T.u = .uzero := hu0
    rw [setValueInt_eq, clearValue_uzero_heap T h hTu]
    simp [heldM]
  | VECTOR2 =>
    by_cases hcc : src.count = 1
    · simp only [cloneInto, hs, if_pos hcc]
      set T : MaterialParameter := {tgt with type := MPType.VECTOR2, count := src.count, dynamic := src.dynamic, uniform := src.uniform} with hTdef
      have hTu : T.u = .uzero := hu0
      rw [setValueVector2_eq, clearValue_uzero_heap T h hTu]
      simp [heldM, refCountM_allocF]
    · simp only [cloneInto, hs, if_neg hcc]
      set T : MaterialParameter := {tgt with type := MPType.VECTOR2, count := src.count, dynamic := src.dynamic, uniform := src.uniform} with hTdef
      have hTu : T.u = .uzero := hu0
      rw [setValueVector2Array_eq, clearValue_uzero_heap T h hTu]
      simp [heldM]
  | VECTOR3 =>
    by_cases hcc : src.count = 1
    · simp only [cloneInto, hs, if_pos hcc]
      set T : MaterialParameter := {tgt with type := MPType.VECTOR3, count := src.count, dynamic := src.dynamic, uniform := src.uniform} with hTdef
      have hTu : T.u = .uzero := hu0
      rw [setValueVector3_eq, clearValue_uzero_heap T h hTu]
      simp [heldM, refCountM_allocF]
    · simp only [cloneInto, hs, if_neg hcc]
      set T : MaterialParameter := {tgt with type := MPType.VECTOR3, count := src.count, dynamic := src.dynamic, uniform := src.uniform} with hTdef
      have hTu : T.u = .uzero := hu0
      rw [setValueVector3Array_eq, clearValue_uzero_heap T h hTu]
      simp [heldM]
  | VECTOR4 =>
    by_cases hcc : src.count = 1
    · simp only [cloneInto, hs, if_pos hcc]
      set T : MaterialParameter := {tgt with type := MPType.VECTOR4, count := src.count, dynamic := src.dynamic, uniform := src.uniform} with hTdef
      have hTu : T.u = .uzero := hu0
      rw [setValueVector4_eq, clearValue_uzero_heap T h hTu]
      simp [heldM, refCountM_allocF]
    · simp only [cloneInto, hs, if_neg hcc]
      set T : MaterialParameter := {tgt with type := MPType.VECTOR4, count := src.count, dynamic := src.dynamic, uniform := src.uniform} with hTdef
      have hTu : T.u = .uzero := hu0
      rw [setValueVector4Array_eq, clearValue_uzero_heap T h hTu]
      simp [heldM]
  | MATRIX =>
    by_cases hcc : src.count = 1
    · simp only [cloneInto, hs, if_pos hcc]
      set T : MaterialParameter := {tgt with type := MPType.MATRIX, count := src.count, dynamic := src.dynamic, uniform := src.uniform} with hTdef
      have hTu : T.u = .uzero := hu0
      rw [setValueMatrix_eq, if_neg (by simp [hTu, hu0, UnionVal.asPtr]),
        clearValue_uzero_heap T h hTu]
      simp [heldM, refCountM_allocF]
    · simp only [cloneInto, hs, if_neg hcc]
      set T : MaterialParameter := {tgt with type := MPType.MATRIX, count := src.count, dynamic := src.dynamic, uniform := src.uniform} with hTdef
      have hTu : T.u = .uzero := hu0
      rw [setValueMatrixArray_eq, clearValue_uzero_heap T h hTu]
      simp [heldM]
  | SAMPLER =>
    simp only [cloneInto, hs]
    set T : MaterialParameter := {tgt with type := MPType.SAMPLER, count := src.count, dynamic := src.dynamic, uniform := src.uniform} with hTdef
    have hTu : T.u = .uzero := hu0
    rw [setValueSampler_eq]
    by_cases hsp : src.u.asPtr ≠ 0
    · rw [if_pos hsp, clearValue_uzero_heap T h hTu, refCountM_addRefS]
      simp [heldM]
    · rw [if_neg hsp, clearValue_uzero_heap T h hTu, heldM_clearValue,
        Nat.add_zero]
  | METHOD =>
    simp only [cloneInto, hs]
    by_cases hm0 : src.u.asPtr = 0
    · rw [hm0, addRefM_zero]
      have h1 : heldM ({tgt with type := MPType.METHOD, count := src.count, dynamic := src.dynamic, uniform := src.uniform, u := UnionVal.uptr 0}) m = 0 := by
        unfold heldM
        rw [if_neg]
        rintro ⟨-, -, hpm, hmz⟩
        exact hmz (by simpa [UnionVal.asPtr] using hpm.symm)
      rw [h1, Nat.add_zero]
    · by_cases hmm : m = src.u.asPtr
      · rw [hmm, refCountM_addRefM_self _ _ hm0]
        have h1 : heldM ({tgt with type := MPType.METHOD, count := src.count, dynamic := src.dynamic, uniform := src.uniform, u := UnionVal.uptr src.u.asPtr}) src.u.asPtr = 1 := by
          unfold heldM
          rw [if_pos ⟨rfl, hsd hs, rfl, hm0⟩]
        rw [h1]
      · rw [refCountM_addRefM_ne _ _ _ hmm]
        have h1 : heldM ({tgt with type := MPType.METHOD, count := src.count, dynamic := src.dynamic, uniform := src.uniform, u := UnionVal.uptr src.u.asPtr}) m = 0 := by
          simp only [heldM]
          rw [if_neg]
          rintro ⟨-, -, hpm, -⟩
          exact hmm (by simpa [UnionVal.asPtr] using hpm.symm)
        rw [h1, Nat.add_zero]

/-- C4 counterexample: `cloneInto` with a `NONE`-kind source applied to a
target that owns a dynamic Vector2 buffer overwrites the target's type and
ownership flags without tearing its payload down, so after tearing the
clone target down the one `new[]` has no matching `delete[]` — the prior
payload was leaked, contradicting the claim. -/
theorem C4_clone_nonempty_target_leak :
    (clearValue
        (cloneInto (mkMaterialParameter "s")
          (setValueVector2 (mkMaterialParameter "t") emptyHeap 1 2).1
          (setValueVector2 (mkMaterialParameter "t") emptyHeap 1 2).2).1
        (cloneInto (mkMaterialParameter "s")
          (setValueVector2 (mkMaterialParameter "t") emptyHeap 1 2).1
          (setValueVector2 (mkMaterialParameter "t") emptyHeap 1 2).2).2).2.newCount
        = 1 ∧
    (clearValue
        (cloneInto (mkMaterialParameter "s")
          (setValueVector2 (mkMaterialParameter "t") emptyHeap 1 2).1
          (setValueVector2 (mkMaterialParameter "t") emptyHeap 1 2).2).1
        (cloneInto (mkMaterialParameter "s")
          (setValueVector2 (mkMaterialParameter "t") emptyHeap 1 2).1
          (setValueVector2 (mkMaterialParameter "t") emptyHeap 1 2).2).2).2.deleteCount
        = 0 := by
  decide

/-- C4 (amended): every mutation through the typed `setValue` overloads
and `clearValue` fully tears down the prior payload with an
ownership-respecting release before establishing the new value, for every
combination of prior kind/ownership and new kind: the `new[]`/`delete[]`
ledger stays balanced against the cell's single owned buffer, and for
every sampler and method-binding address the heap reference count changes
by exactly the release of the reference the cell held before minus the
acquisition of the reference it holds after (so a held ref-counted handle
is released exactly once and nothing else is touched).  `cloneInto`
guarantees the same only when the target holds no prior value (kind
`NONE`, not dynamic, zeroed union) — there its ledgers balance and each
sampler/method reference count grows by exactly the clone's new hold;
applied to a non-empty target it can leak the target's prior payload, as
the counterexample shows.  (A method-holding source is dynamic, as the
dynamic branch of `clearValue` — the only place methods are released —
presumes.) -/
theorem C4_teardown_balance :
    (∀ (op : MutOp) (p : MaterialParameter) (h : Heap), 0 < h.next →
      heapBalanced p h →
      heapBalanced (runMutOp op p h).1 (runMutOp op p h).2) ∧
    (∀ (op : MutOp) (p : MaterialParameter) (h : Heap) (s : ℕ),
      heldS p s ≤ refCountS h s →
      refCountS (runMutOp op p h).2 s + heldS p s =
        refCountS h s + heldS (runMutOp op p h).1 s) ∧
    (∀ (op : MutOp) (p : MaterialParameter) (h : Heap) (m : ℕ),
      heldM p m ≤ refCountM h m →
      refCountM (runMutOp op p h).2 m + heldM p m =
        refCountM h m + heldM (runMutOp op p h).1 m) ∧
    (∀ (src tgt : MaterialParameter) (h : Heap), 0 < h.next →
      tgt.type = .NONE → tgt.dynamic = false → tgt.u = .uzero →
      h.newCount = h.deleteCount + ownedAllocs src →
      (cloneInto src tgt h).2.newCount =
        (cloneInto src tgt h).2.deleteCount + ownedAllocs src +
          ownedAllocs (cloneInto src tgt h).1) ∧
    (∀ (src tgt : MaterialParameter) (h : Heap) (s : ℕ),
      tgt.type = .NONE → tgt.dynamic = false → tgt.u = .uzero →
      refCountS (cloneInto src tgt h).2 s =
        refCountS h s + heldS (cloneInto src tgt h).1 s) ∧
    (∀ (src tgt : MaterialParameter) (h : Heap) (m : ℕ),
      tgt.type = .NONE → tgt.dynamic = false → tgt.u = .uzero →
      (src.type = .METHOD → src.dynamic = true) →
      refCountM (cloneInto src tgt h).2 m =
        refCountM h m + heldM (cloneInto src tgt h).1 m) := by
  refine ⟨?_,
    fun op p h s hle => runMutOp_refS op p h s hle,
    fun op p h m hle => runMutOp_refM op p h m hle,
    ?_,
    fun src tgt h s ht0 hd0 hu0 => cloneInto_refS src tgt h s ht0 hd0 hu0,
    fun src tgt h m ht0 hd0 hu0 hsd =>
      cloneInto_refM src tgt h m ht0 hd0 hu0 hsd⟩
  · intro op p h hn hb
    obtain ⟨l1, l2, l3, l4, l5⟩ := clearValue_ledger p h
    unfold heapBalanced at hb ⊢
    cases op with
    | opClear =>
      simp only [runMutOp]
      rw [l1, l2, l3]
      omega
    | opFloat x =>
      simp only [runMutOp, setValueFloat_eq]
      have ho : ownedAllocs ({(clearValue p h).1 with
          u := UnionVal.ufloat x, type := MPType.FLOAT }) = 0 := by
        simp [ownedAllocs, l5]
      rw [l1, l2, ho]
      omega
    | opInt x =>
      simp only [runMutOp, setValueInt_eq]
      have ho : ownedAllocs ({(clearValue p h).1 with
          u := UnionVal.uint x, type := MPType.INT }) = 0 := by
        simp [ownedAllocs, l5]
      rw [l1, l2, ho]
      omega
    | opFloatArray a n =>
      simp only [runMutOp, setValueFloatArray_eq]
      have ho : ownedAllocs ({(clearValue p h).1 with
          u := UnionVal.uptr a, count := n, type := MPType.FLOAT }) = 0 := by
        simp [ownedAllocs, l5]
      rw [l1, l2, ho]
      omega
    | opIntArray a n =>
      simp only [runMutOp, setValueIntArray_eq]
      have ho : ownedAllocs ({(clearValue p h).1 with
          u := UnionVal.uptr a, count := n, type := MPType.INT }) = 0 := by
        simp [ownedAllocs, l5]
      rw [l1, l2, ho]
      omega
    | opVector2 x y =>
      simp only [runMutOp, setValueVector2_eq]
      have hnx : (clearValue p h).2.next ≠ 0 := by rw [l4]; omega
      have ho : ownedAllocs ({(clearValue p h).1 with
          u := UnionVal.uptr ((clearValue p h).2.next), dynamic := true, count := 1, type := MPType.VECTOR2 }) = 1 := by
        simp [ownedAllocs, UnionVal.asPtr, hnx]
      rw [allocF_newCount, allocF_deleteCount, l1, l2, ho]
      omega
    | opVector2Array a n =>
      simp only [runMutOp, setValueVector2Array_eq]
      have ho : ownedAllocs ({(clearValue p h).1 with
          u := UnionVal.uptr a, count := n, type := MPType.VECTOR2 }) = 0 := by
        simp [ownedAllocs, l5]
      rw [l1, l2, ho]
      omega
    | opVector3 x y z =>
      simp only [runMutOp, setValueVector3_eq]
      have hnx : (clearValue p h).2.next ≠ 0 := by rw [l4]; omega
      have ho : ownedAllocs ({(clearValue p h).1 with
          u := UnionVal.uptr ((clearValue p h).2.next), dynamic := true, count := 1, type := MPType.VECTOR3 }) = 1 := by
        simp [ownedAllocs, UnionVal.asPtr, hnx]
      rw [allocF_newCount, allocF_deleteCount, l1, l2, ho]
      omega
    | opVector3Array a n =>
      simp only [runMutOp, setValueVector3Array_eq]
      have ho : ownedAllocs ({(clearValue p h).1 with
          u := UnionVal.uptr a, count := n, type := MPType.VECTOR3 }) = 0 := by
        simp [ownedAllocs, l5]
      rw [l1, l2, ho]
      omega
    | opVector4 x y z w =>
      simp only [runMutOp, setValueVector4_eq]
      have hnx : (clearValue p h).2.next ≠ 0 := by rw [l4]; omega
      have ho : ownedAllocs ({(clearValue p h).1 with
          u := UnionVal.uptr ((clearValue p h).2.next), dynamic := true, count := 1, type := MPType.VECTOR4 }) = 1 := by
        simp [ownedAllocs, UnionVal.asPtr, hnx]
      rw [allocF_newCount, allocF_deleteCount, l1, l2, ho]
      omega
    | opVector4Array a n =>
      simp only [runMutOp, setValueVector4Array_eq]
      have ho : ownedAllocs ({(clearValue p h).1 with
          u := UnionVal.uptr a, count := n, type := MPType.VECTOR4 }) = 0 := by
        simp [ownedAllocs, l5]
      rw [l1, l2, ho]
      omega
    | opMatrix m =>
      simp only [runMutOp, setValueMatrix_eq]
      by_cases hq : p.dynamic = true ∧ p.count = 1 ∧ p.type = .MATRIX ∧
          p.u.asPtr ≠ 0
      · rw [if_pos hq]
        have ho1 : ownedAllocs p = 1 := by
          simp [ownedAllocs, hq.1, hq.2.2.1, hq.2.2.2]
        have ho2 : ownedAllocs ({p with dynamic := true, count := 1, type := MPType.MATRIX }) = 1 := by
          simp [ownedAllocs, hq.2.2.2]
        rw [storeF_newCount, storeF_deleteCount, ho2]
        rw [ho1] at hb
        omega
      · rw [if_neg hq]
        have hnx : (clearValue p h).2.next ≠ 0 := by rw [l4]; omega
        have ho : ownedAllocs ({(clearValue p h).1 with
            u := UnionVal.uptr ((clearValue p h).2.next), dynamic := true, count := 1, type := MPType.MATRIX }) = 1 := by
          simp [ownedAllocs, UnionVal.asPtr, hnx]
        rw [allocF_newCount, allocF_deleteCount, l1, l2, ho]
        omega
    | opMatrixArray a n =>
      simp only [runMutOp, setValueMatrixArray_eq]
      have ho : ownedAllocs ({(clearValue p h).1 with u := UnionVal.uptr a, count := n, type := MPType.MATRIX }) = 0 := by
        simp [ownedAllocs, l5]
      rw [l1, l2, ho]
      omega
    | opSampler s =>
      simp only [runMutOp, setValueSampler_eq]
      by_cases hs : s ≠ 0
      · rw [if_pos hs]
        have ho : ownedAllocs ({(clearValue p h).1 with
            u := UnionVal.uptr s, type := MPType.SAMPLER }) = 0 := by
          simp [ownedAllocs, l5]
        rw [addRefS_newCount, addRefS_deleteCount, l1, l2, ho]
        omega
      · rw [if_neg hs]
        rw [l1, l2, l3]
        omega
  · intro src tgt h hn ht0 hd0 hu0 hb
    have hne : h.next ≠ 0 := by omega
    cases hs : src.type with
    | NONE =>
      simp only [cloneInto, hs]
      have ho : ownedAllocs ({tgt with type := MPType.NONE, count := src.count, dynamic := src.dynamic, uniform := src.uniform}) = 0 := by
        simp [ownedAllocs]
      rw [ho]
      omega
    | FLOAT =>
      simp only [cloneInto, hs]
      set T : MaterialParameter := {tgt with type := MPType.FLOAT, count := src.count, dynamic := src.dynamic, uniform := src.uniform} with hTdef
      have hTu : T.u = .uzero := hu0
      have hheq := clearValue_uzero_heap T h hTu
      rw [setValueFloat_eq]
      have ho : ownedAllocs ({(clearValue T h).1 with u := UnionVal.ufloat src.u.asFloat, type := MPType.FLOAT }) = 0 := by
        simp [ownedAllocs, clearValue_dynamic_false]
      rw [hheq, ho]
      omega
    | INT =>
      simp only [cloneInto, hs]
      set T : MaterialParameter := {tgt with type := MPType.INT, count := src.count, dynamic := src.dynamic, uniform := src.uniform} with hTdef
      have hTu : T.u = .uzero := hu0
      have hheq := clearValue_uzero_heap T h hTu
      rw [setValueInt_eq]
      have ho : ownedAllocs ({(clearValue T h).1 with u := UnionVal.uint src.u.asInt, type := MPType.INT }) = 0 := by
        simp [ownedAllocs, clearValue_dynamic_false]
      rw [hheq, ho]
      omega
    | VECTOR2 =>
      by_cases hcc : src.count = 1
      · simp only [cloneInto, hs, if_pos hcc]
        set T : MaterialParameter := {tgt with type := MPType.VECTOR2, count := src.count, dynamic := src.dynamic, uniform := src.uniform} with hTdef
        have hTu : T.u = .uzero := hu0
        have hheq := clearValue_uzero_heap T h hTu
        rw [setValueVector2_eq, hheq]
        have ho : ownedAllocs ({(clearValue T h).1 with u := UnionVal.uptr h.next, dynamic := true, count := 1, type := MPType.VECTOR2 }) = 1 := by
          simp [ownedAllocs, UnionVal.asPtr, hne]
        rw [allocF_newCount, allocF_deleteCount, ho]
        omega
      · simp only [cloneInto, hs, if_neg hcc]
        set T : MaterialParameter := {tgt with type := MPType.VECTOR2, count := src.count, dynamic := src.dynamic, uniform := src.uniform} with hTdef
        have hTu : T.u = .uzero := hu0
        have hheq := clearValue_uzero_heap T h hTu
        rw [setValueVector2Array_eq]
        have ho : ownedAllocs ({(clearValue T h).1 with u := UnionVal.uptr src.u.asPtr, count := src.count, type := MPType.VECTOR2 }) = 0 := by
          simp [ownedAllocs, clearValue_dynamic_false]
        rw [hheq, ho]
        omega
    | VECTOR3 =>
      by_cases hcc : src.count = 1
      · simp only [cloneInto, hs, if_pos hcc]
        set T : MaterialParameter := {tgt with type := MPType.VECTOR3, count := src.count, dynamic := src.dynamic, uniform := src.uniform} with hTdef
        have hTu : T.u = .uzero := hu0
        have hheq := clearValue_uzero_heap T h hTu
        rw [setValueVector3_eq, hheq]
        have ho : ownedAllocs ({(clearValue T h).1 with u := UnionVal.uptr h.next, dynamic := true, count := 1, type := MPType.VECTOR3 }) = 1 := by
          simp [ownedAllocs, UnionVal.asPtr, hne]
        rw [allocF_newCount, allocF_deleteCount, ho]
        omega
      · simp only [cloneInto, hs, if_neg hcc]
        set T : MaterialParameter := {tgt with type := MPType.VECTOR3, count := src.count, dynamic := src.dynamic, uniform := src.uniform} with hTdef
        have hTu : T.u = .uzero := hu0
        have hheq := clearValue_uzero_heap T h hTu
        rw [setValueVector3Array_eq]
        have ho : ownedAllocs ({(clearValue T h).1 with u := UnionVal.uptr src.u.asPtr, count := src.count, type := MPType.VECTOR3 }) = 0 := by
          simp [ownedAllocs, clearValue_dynamic_false]
        rw [hheq, ho]
        omega
    | VECTOR4 =>
      by_cases hcc : src.count = 1
      · simp only [cloneInto, hs, if_pos hcc]
        set T : MaterialParameter := {tgt with type := MPType.VECTOR4, count := src.count, dynamic := src.dynamic, uniform := src.uniform} with hTdef
        have hTu : T.u = .uzero := hu0
        have hheq := clearValue_uzero_heap T h hTu
        rw [setValueVector4_eq, hheq]
        have ho : ownedAllocs ({(clearValue T h).1 with u := UnionVal.uptr h.next, dynamic := true, count := 1, type := MPType.VECTOR4 }) = 1 := by
          simp [ownedAllocs, UnionVal.asPtr, hne]
        rw [allocF_newCount, allocF_deleteCount, ho]
        omega
      · simp only [cloneInto, hs, if_neg hcc]
        set T : MaterialParameter := {tgt with type := MPType.VECTOR4, count := src.count, dynamic := src.dynamic, uniform := src.uniform} with hTdef
        have hTu : T.u = .uzero := hu0
        have hheq := clearValue_uzero_heap T h hTu
        rw [setValueVector4Array_eq]
        have ho : ownedAllocs ({(clearValue T h).1 with u := UnionVal.uptr src.u.asPtr, count := src.count, type := MPType.VECTOR4 }) = 0 := by
          simp [ownedAllocs, clearValue_dynamic_false]
        rw [hheq, ho]
        omega
    | MATRIX =>
      by_cases hcc : src.count = 1
      · simp only [cloneInto, hs, if_pos hcc]
        set T : MaterialParameter := {tgt with type := MPType.MATRIX, count := src.count, dynamic := src.dynamic, uniform := src.uniform} with hTdef
        have hTu : T.u = .uzero := hu0
        have hheq := clearValue_uzero_heap T h hTu
        rw [setValueMatrix_eq, if_neg (by simp [hTu, hu0, UnionVal.asPtr]), hheq]
        have ho : ownedAllocs ({(clearValue T h).1 with u := UnionVal.uptr h.next, dynamic := true, count := 1, type := MPType.MATRIX }) = 1 := by
          simp [ownedAllocs, UnionVal.asPtr, hne]
        rw [allocF_newCount, allocF_deleteCount, ho]
        omega
      · simp only [cloneInto, hs, if_neg hcc]
        set T : MaterialParameter := {tgt with type := MPType.MATRIX, count := src.count, dynamic := src.dynamic, uniform := src.uniform} with hTdef
        have hTu : T.u = .uzero := hu0
        have hheq := clearValue_uzero_heap T h hTu
        rw [setValueMatrixArray_eq]
        have ho : ownedAllocs ({(clearValue T h).1 with u := UnionVal.uptr src.u.asPtr, count := src.count, type := MPType.MATRIX }) = 0 := by
          simp [ownedAllocs, clearValue_dynamic_false]
        rw [hheq, ho]
        omega
    | SAMPLER =>
      simp only [cloneInto, hs]
      set T : MaterialParameter := {tgt with type := MPType.SAMPLER, count := src.count, dynamic := src.dynamic, uniform := src.uniform} with hTdef
      have hTu : T.u = .uzero := hu0
      have hheq := clearValue_uzero_heap T h hTu
      rw [setValueSampler_eq]
      by_cases hsp : src.u.asPtr ≠ 0
      · rw [if_pos hsp]
        have ho : ownedAllocs ({(clearValue T h).1 with u := UnionVal.uptr src.u.asPtr, type := MPType.SAMPLER }) = 0 := by
          simp [ownedAllocs]
        rw [hheq, addRefS_newCount, addRefS_deleteCount, ho]
        omega
      · rw [if_neg hsp]
        obtain ⟨m1, m2, m3, m4, m5⟩ := clearValue_ledger T h
        have hTo : ownedAllocs T = 0 := ownedAllocs_uzero T hTu
        rw [m1, m2, m3, hTo]
        omega
    | METHOD =>
      simp only [cloneInto, hs]
      have ho : ownedAllocs ({tgt with type := MPType.METHOD, count := src.count, dynamic := src.dynamic, uniform := src.uniform, u := UnionVal.uptr src.u.asPtr}) = 0 := by
        simp [ownedAllocs]
      rw [addRefM_newCount, addRefM_deleteCount, ho]
      omega

/-- Witness for C4 (amended): `setValue(Vector2)` on a fresh parameter
keeps the buffer ledger balanced; clearing a cell that holds a sampler of
reference count 2 (resp. a dynamic method binding of count 1) changes that
count by exactly the one release; cloning a sampler-holding cell into a
fresh parameter grows the sampler's count by exactly the clone's new
hold. -/
theorem C4_teardown_balance_witness :
    heapBalanced (runMutOp (.opVector2 1 2) (mkMaterialParameter "w")
        emptyHeap).1
      (runMutOp (.opVector2 1 2) (mkMaterialParameter "w") emptyHeap).2 ∧
    (heldS (⟨.SAMPLER, 1, false, "s", none, .uptr 3⟩ : MaterialParameter) 3 ≤
        refCountS (⟨[], [], [(3, 2)], [], 1, 0, 0⟩ : Heap) 3 ∧
      refCountS (runMutOp .opClear
            (⟨.SAMPLER, 1, false, "s", none, .uptr 3⟩ : MaterialParameter)
            (⟨[], [], [(3, 2)], [], 1, 0, 0⟩ : Heap)).2 3 +
          heldS (⟨.SAMPLER, 1, false, "s", none, .uptr 3⟩ : MaterialParameter) 3 =
        refCountS (⟨[], [], [(3, 2)], [], 1, 0, 0⟩ : Heap) 3 +
          heldS (runMutOp .opClear
            (⟨.SAMPLER, 1, false, "s", none, .uptr 3⟩ : MaterialParameter)
            (⟨[], [], [(3, 2)], [], 1, 0, 0⟩ : Heap)).1 3) ∧
    (heldM (⟨.METHOD, 1, true, "m", none, .uptr 4⟩ : MaterialParameter) 4 ≤
        refCountM (⟨[], [], [], [(4, 1)], 1, 0, 0⟩ : Heap) 4 ∧
      refCountM (runMutOp .opClear
            (⟨.METHOD, 1, true, "m", none, .uptr 4⟩ : MaterialParameter)
            (⟨[], [], [], [(4, 1)], 1, 0, 0⟩ : Heap)).2 4 +
          heldM (⟨.METHOD, 1, true, "m", none, .uptr 4⟩ : MaterialParameter) 4 =
        refCountM (⟨[], [], [], [(4, 1)], 1, 0, 0⟩ : Heap) 4 +
          heldM (runMutOp .opClear
            (⟨.METHOD, 1, true, "m", none, .uptr 4⟩ : MaterialParameter)
            (⟨[], [], [], [(4, 1)], 1, 0, 0⟩ : Heap)).1 4) ∧
    refCountS (cloneInto
          (⟨.SAMPLER, 1, false, "s", none, .uptr 3⟩ : MaterialParameter)
          (mkMaterialParameter "c")
          (⟨[], [], [(3, 2)], [], 1, 0, 0⟩ : Heap)).2 3 =
      refCountS (⟨[], [], [(3, 2)], [], 1, 0, 0⟩ : Heap) 3 +
        heldS (cloneInto
          (⟨.SAMPLER, 1, false, "s", none, .uptr 3⟩ : MaterialParameter)
          (mkMaterialParameter "c")
          (⟨[], [], [(3, 2)], [], 1, 0, 0⟩ : Heap)).1 3 :=
  ⟨C4_teardown_balance.1 (.opVector2 1 2) (mkMaterialParameter "w") emptyHeap
      (by decide) (by decide),
   ⟨by decide,
    C4_teardown_balance.2.1 .opClear
      (⟨.SAMPLER, 1, false, "s", none, .uptr 3⟩ : MaterialParameter)
      (⟨[], [], [(3, 2)], [], 1, 0, 0⟩ : Heap) 3 (by decide)⟩,
   ⟨by decide,
    C4_teardown_balance.2.2.1 .opClear
      (⟨.METHOD, 1, true, "m", none, .uptr 4⟩ : MaterialParameter)
      (⟨[], [], [], [(4, 1)], 1, 0, 0⟩ : Heap) 4 (by decide)⟩,
   C4_teardown_balance.2.2.2.2.1
     (⟨.SAMPLER, 1, false, "s", none, .uptr 3⟩ : MaterialParameter)
     (mkMaterialParameter "c") (⟨[], [], [(3, 2)], [], 1, 0, 0⟩ : Heap) 3
     rfl rfl rfl⟩

/-- C5: cloning a Vector3 parameter with count 1 into a fresh target
deep-copies the three channels into newly owned storage — the clone's
value equals the original's, the clone's buffer is a different address,
and overwriting the clone's buffer leaves the original's channels
unchanged; for count > 1 the clone aliases the same external buffer (same
address and count, heap untouched). -/
theorem C5_clone_vector3 :
    (∀ (p tgt : MaterialParameter) (h : Heap) (a : ℕ) (x y z : ℚ),
      p.type = .VECTOR3 → p.count = 1 → p.u = .uptr a →
      lookupA h.fblocks a = some [x, y, z] → a < h.next →
      tgt.type = .NONE → tgt.dynamic = false → tgt.u = .uzero →
      storedChannels (cloneInto p tgt h).1 (cloneInto p tgt h).2 =
        [x, y, z] ∧
      storedChannels p (cloneInto p tgt h).2 = [x, y, z] ∧
      (cloneInto p tgt h).1.u.asPtr ≠ a ∧
      (∀ ws : List ℚ,
        storedChannels p
          (storeF (cloneInto p tgt h).2 (cloneInto p tgt h).1.u.asPtr ws) =
          [x, y, z])) ∧
    (∀ (p tgt : MaterialParameter) (h : Heap) (a : ℕ),
      p.type = .VECTOR3 → ¬ p.count = 1 → p.u = .uptr a →
      tgt.type = .NONE → tgt.dynamic = false → tgt.u = .uzero →
      (cloneInto p tgt h).1.u = .uptr a ∧
      (cloneInto p tgt h).1.count = p.count ∧
      (cloneInto p tgt h).2 = h) := by
  constructor
  · intro p tgt h a x y z ht hc hu hl hlt ht0 hd0 hu0
    have hna : a ≠ h.next := by omega
    simp only [cloneInto, ht, if_pos hc]
    set T : MaterialParameter := {tgt with type := MPType.VECTOR3, count := p.count, dynamic := p.dynamic, uniform := p.uniform} with hTdef
    have hTu : T.u = .uzero := hu0
    have hheq := clearValue_uzero_heap T h hTu
    have hb0 : bufF h a 0 = x := by simp [bufF, heapF, hl]
    have hb1 : bufF h a 1 = y := by simp [bufF, heapF, hl]
    have hb2 : bufF h a 2 = z := by simp [bufF, heapF, hl]
    rw [hu]
    simp only [UnionVal.asPtr]
    rw [setValueVector3_eq, hheq, hb0, hb1, hb2]
    have hself : lookupA (allocF h [x, y, z]).2.fblocks h.next =
        some [x, y, z] := lookupA_cons_self h.fblocks h.next [x, y, z]
    have hother : lookupA (allocF h [x, y, z]).2.fblocks a =
        lookupA h.fblocks a := lookupA_cons_ne h.fblocks h.next a [x, y, z] hna
    refine ⟨?_, ?_, ?_, ?_⟩
    · simp [storedChannels, UnionVal.asPtr, bufF, heapF, hself,
        List.range_succ]
    · simp [storedChannels, ht, hc, UnionVal.asPtr, hu, bufF, heapF,
        hother, hl, List.range_succ]
    · simp only [UnionVal.asPtr]
      exact Ne.symm hna
    · intro ws
      simp only [UnionVal.asPtr]
      have hst : lookupA (storeF (allocF h [x, y, z]).2 h.next ws).fblocks a =
          lookupA h.fblocks a := by
        rw [storeF]
        rw [lookupA_storeA_ne _ _ _ _ hna]
        exact hother
      simp [storedChannels, ht, hc, UnionVal.asPtr, hu, bufF, heapF, hst,
        hl, List.range_succ]
  · intro p tgt h a ht hc hu ht0 hd0 hu0
    simp only [cloneInto, ht, if_neg hc]
    set T : MaterialParameter := {tgt with type := MPType.VECTOR3, count := p.count, dynamic := p.dynamic, uniform := p.uniform} with hTdef
    have hTu : T.u = .uzero := hu0
    have hheq := clearValue_uzero_heap T h hTu
    rw [hu]
    simp only [UnionVal.asPtr]
    rw [setValueVector3Array_eq, hheq]
    exact ⟨rfl, rfl, rfl⟩

/-- Witness for C5 at a Vector3 cell holding `(1,2,3)` at address 1 cloned
into a fresh parameter, and at a borrowed 2-element Vector3 array. -/
theorem C5_clone_vector3_witness :
    storedChannels
        (cloneInto (⟨.VECTOR3, 1, true, "o", none, .uptr 1⟩ : MaterialParameter)
          (mkMaterialParameter "c")
          (⟨[(1, [1, 2, 3])], [], [], [], 2, 0, 0⟩ : Heap)).1
        (cloneInto (⟨.VECTOR3, 1, true, "o", none, .uptr 1⟩ : MaterialParameter)
          (mkMaterialParameter "c")
          (⟨[(1, [1, 2, 3])], [], [], [], 2, 0, 0⟩ : Heap)).2 = [1, 2, 3] ∧
      storedChannels (⟨.VECTOR3, 1, true, "o", none, .uptr 1⟩ : MaterialParameter)
        (cloneInto (⟨.VECTOR3, 1, true, "o", none, .uptr 1⟩ : MaterialParameter)
          (mkMaterialParameter "c")
          (⟨[(1, [1, 2, 3])], [], [], [], 2, 0, 0⟩ : Heap)).2 = [1, 2, 3] ∧
      (cloneInto (⟨.VECTOR3, 1, true, "o", none, .uptr 1⟩ : MaterialParameter)
          (mkMaterialParameter "c")
          (⟨[(1, [1, 2, 3])], [], [], [], 2, 0, 0⟩ : Heap)).1.u.asPtr ≠ 1 ∧
      (∀ ws : List ℚ,
        storedChannels (⟨.VECTOR3, 1, true, "o", none, .uptr 1⟩ : MaterialParameter)
          (storeF
            (cloneInto (⟨.VECTOR3, 1, true, "o", none, .uptr 1⟩ : MaterialParameter)
              (mkMaterialParameter "c")
              (⟨[(1, [1, 2, 3])], [], [], [], 2, 0, 0⟩ : Heap)).2
            (cloneInto (⟨.VECTOR3, 1, true, "o", none, .uptr 1⟩ : MaterialParameter)
              (mkMaterialParameter "c")
              (⟨[(1, [1, 2, 3])], [], [], [], 2, 0, 0⟩ : Heap)).1.u.asPtr ws) =
          [1, 2, 3]) ∧
    (cloneInto (⟨.VECTOR3, 2, false, "o", none, .uptr 7⟩ : MaterialParameter)
        (mkMaterialParameter "c") emptyHeap).1.u = .uptr 7 ∧
    (cloneInto (⟨.VECTOR3, 2, false, "o", none, .uptr 7⟩ : MaterialParameter)
        (mkMaterialParameter "c") emptyHeap).1.count =
      (⟨.VECTOR3, 2, false, "o", none, .uptr 7⟩ : MaterialParameter).count ∧
    (cloneInto (⟨.VECTOR3, 2, false, "o", none, .uptr 7⟩ : MaterialParameter)
        (mkMaterialParameter "c") emptyHeap).2 = emptyHeap := by
  obtain ⟨w1, w2, w3, w4⟩ := C5_clone_vector3.1
    (⟨.VECTOR3, 1, true, "o", none, .uptr 1⟩ : MaterialParameter)
    (mkMaterialParameter "c")
    (⟨[(1, [1, 2, 3])], [], [], [], 2, 0, 0⟩ : Heap) 1 1 2 3
    rfl rfl rfl rfl (by decide) rfl rfl rfl
  obtain ⟨w5, w6, w7⟩ := C5_clone_vector3.2
    (⟨.VECTOR3, 2, false, "o", none, .uptr 7⟩ : MaterialParameter)
    (mkMaterialParameter "c") emptyHeap 7
    rfl (by decide) rfl rfl rfl rfl
  exact ⟨w1, w2, w3, w4, w5, w6, w7⟩

/-- C2: for every parameter and count `n ≥ 1`,
`getAnimationPropertyComponentCount` on the uniform-value property id
returns `n * componentsPerElement(K)` with componentsPerElement
`{1, 1, 2, 3, 4}` for Float, Int, Vector2, Vector3, Vector4, and returns
`0` for Matrix, Sampler, Method and None. -/
theorem C2_component_count (p : MaterialParameter) (_hn : 1 ≤ p.count) :
    getAnimationPropertyComponentCount p ANIMATE_UNIFORM =
      p.count * specComponentsPerElement p.type := by
  cases hp : p.type <;>
    simp [getAnimationPropertyComponentCount, ANIMATE_UNIFORM,
      specComponentsPerElement, hp, Nat.mul_comm]

/-- Witness for C2 at a Vector3 parameter of count 5. -/
theorem C2_component_count_witness :
    1 ≤ (⟨.VECTOR3, 5, false, "x", none, .uptr 3⟩ : MaterialParameter).count ∧
    getAnimationPropertyComponentCount
        (⟨.VECTOR3, 5, false, "x", none, .uptr 3⟩ : MaterialParameter)
        ANIMATE_UNIFORM =
      (⟨.VECTOR3, 5, false, "x", none, .uptr 3⟩ : MaterialParameter).count *
        specComponentsPerElement
          (⟨.VECTOR3, 5, false, "x", none, .uptr 3⟩ : MaterialParameter).type :=
  ⟨by decide,
   C2_component_count (⟨.VECTOR3, 5, false, "x", none, .uptr 3⟩ : MaterialParameter)
     (by decide)⟩

/-- C3 (code bug): `setValue(const int*, 2)` followed by `clearValue`
leaves the cell with kind `NONE` and a zeroed payload, but `_count` stays
`2` — the non-dynamic branch of `clearValue` never resets `_count`, while
the claim (and spec) require `count == 1` after every
`setValue`/`clearValue` pair, borrowed-array variants included. -/
theorem C3_clear_borrowed_count :
    (clearValue (setValueIntArray (mkMaterialParameter "a") emptyHeap 7 2).1
        (setValueIntArray (mkMaterialParameter "a") emptyHeap 7 2).2).1.count = 2 ∧
    (clearValue (setValueIntArray (mkMaterialParameter "a") emptyHeap 7 2).1
        (setValueIntArray (mkMaterialParameter "a") emptyHeap 7 2).2).1.type = .NONE ∧
    (clearValue (setValueIntArray (mkMaterialParameter "a") emptyHeap 7 2).1
        (setValueIntArray (mkMaterialParameter "a") emptyHeap 7 2).2).1.u = .uzero := by
  decide

/-- C8 counterexample: the accessor name `"getTranslationWorld"` without
the `"&Node::"` prefix is not in the dispatch chain, so the request ends
in the fatal `GP_ERROR` branch instead of installing a 3-channel computed
binding as the claim states. -/
theorem C8_unprefixed_name_fatal :
    bindValueDispatch "getTranslationWorld" = .fatalError ∧
    BindValueOutcome.fatalError ≠ .installed 3 := by
  exact ⟨by decide, by decide⟩

/-- C8 (amended): the recognized accessor names carry the `"&Node::"`
prefix; `"&Node::getTranslationWorld"` succeeds and installs a 3-channel
computed binding, while the unprefixed `"getTranslationWorld"` and any
name outside the table such as `"bogusAccessor"` are fatal configuration
errors. -/
theorem C8_binding_table :
    bindValueDispatch "&Node::getTranslationWorld" = .installed 3 ∧
    bindValueDispatch "getTranslationWorld" = .fatalError ∧
    bindValueDispatch "bogusAccessor" = .fatalError := by
  exact ⟨by decide, by decide, by decide⟩

/-- C10: `setValue` with a null sampler pointer performs exactly a
`clearValue` — the cell ends with kind `NONE` and a zeroed payload, no
sampler is stored, and unless the prior value was a held sampler (whose
release is the clearing of the prior value) no reference count changes. -/
theorem C10_null_sampler (p : MaterialParameter) (h : Heap) :
    setValueSampler p h 0 = clearValue p h ∧
    (setValueSampler p h 0).1.type = .NONE ∧
    (setValueSampler p h 0).1.u = .uzero ∧
    ((p.type = .SAMPLER ∧ p.dynamic = false ∧ p.u.asPtr ≠ 0) ∨
      (setValueSampler p h 0).2.samplers = h.samplers) := by
  have hs : setValueSampler p h 0 = clearValue p h := by
    simp [setValueSampler]
  refine ⟨hs, ?_, ?_, ?_⟩
  · rw [hs]; unfold clearValue; by_cases hd : p.dynamic <;> simp [hd]
  · rw [hs]; unfold clearValue; by_cases hd : p.dynamic <;> simp [hd]
  · rw [hs]
    by_cases hd : p.dynamic
    · right
      unfold clearValue
      simp only [hd, if_true]
      cases p.type <;>
        simp [deleteF, deleteI, releaseM, storeF, storeI] <;>
        split <;> rfl
    · by_cases ht : p.type = .SAMPLER
      · by_cases hp : p.u.asPtr = 0
        · right
          unfold clearValue
          simp [hd, ht, hp]
        · left; exact ⟨ht, by simp [hd], hp⟩
      · right
        unfold clearValue
        cases htt : p.type <;> simp_all

/-- C7: when the effect exposes no uniform named like the parameter (and
the cached uniform, which is only ever obtained from a successful lookup,
is not from this effect), `bind` emits exactly the warning event, uploads
nothing, and leaves the whole value cell unchanged. -/
theorem C7_missing_uniform (p : MaterialParameter) (e : Effect)
    (hnone : e.getUniform p.name = none)
    (hcache : ∀ u, p.uniform = some u → u.effectId ≠ e.id) :
    (bind p e).2 = [BindEvent.warn] ∧
    (bind p e).1.type = p.type ∧
    (bind p e).1.count = p.count ∧
    (bind p e).1.dynamic = p.dynamic ∧
    (bind p e).1.u = p.u := by
  cases hu : p.uniform with
  | none => simp [bind, hu, hnone]
  | some u =>
    have hne := hcache u hu
    simp [bind, hu, hne, hnone]

/-- Witness for C7: binding a fresh parameter named `lightColor` against
an effect that lacks that uniform. -/
theorem C7_missing_uniform_witness :
    (⟨1, [("other", 5)]⟩ : Effect).getUniform
        (mkMaterialParameter "lightColor").name = none ∧
    (bind (mkMaterialParameter "lightColor") ⟨1, [("other", 5)]⟩).2 =
      [BindEvent.warn] ∧
    (bind (mkMaterialParameter "lightColor") ⟨1, [("other", 5)]⟩).1.type =
      (mkMaterialParameter "lightColor").type ∧
    (bind (mkMaterialParameter "lightColor") ⟨1, [("other", 5)]⟩).1.count =
      (mkMaterialParameter "lightColor").count ∧
    (bind (mkMaterialParameter "lightColor") ⟨1, [("other", 5)]⟩).1.dynamic =
      (mkMaterialParameter "lightColor").dynamic ∧
    (bind (mkMaterialParameter "lightColor") ⟨1, [("other", 5)]⟩).1.u =
      (mkMaterialParameter "lightColor").u := by
  refine ⟨by decide, ?_⟩
  exact C7_missing_uniform (mkMaterialParameter "lightColor") ⟨1, [("other", 5)]⟩
    (by decide) (by intro u hu; simp [mkMaterialParameter] at hu)

end GamePlay
